import Mathlib

namespace Pacemaker

/-!
Verification of the pacemaker repository fragment: the attribute-aggregation
daemon (attrd), the local resource-operation executor (libservices), the alert
dispatcher (lrmd_alerts.c) and the remote IPC proxy (remote.c fragment).

Each C function used by the claims is shallowly embedded as a Lean function
over explicit state.  Opaque C strings become `Option String` (NULL = `none`),
GLib hash tables become association lists, GLists become `List Nat` of
references into an explicit heap, and side effects (callbacks, process kills,
timer arm/disarm, frees) are recorded as explicit event lists.
-/

/-- ASCII lower-casing of one character's code point, as `strcasecmp` performs
per byte. -/
def lower_code (c : Char) : Nat :=
  if 65 ≤ c.toNat ∧ c.toNat ≤ 90 then c.toNat + 32 else c.toNat

/-- `strcasecmp(a, b) == 0`: case-insensitive string equality. -/
def strcasecmp_eq (a b : String) : Bool :=
  a.data.map lower_code = b.data.map lower_code

/-- `safe_str_eq(a, b)` = `crm_str_eq(a, b, FALSE)` from pacemaker's util.h:
NULL-tolerant, case-insensitive string comparison.  Two NULL pointers compare
equal (the `a == b` pointer test), NULL against non-NULL is unequal, and
otherwise `strcasecmp(a, b) == 0`. -/
def safe_str_eq : Option String → Option String → Bool
  | none, none => true
  | some a, some b => strcasecmp_eq a b
  | _, _ => false

/-! ## IPC proxy (src/unnamed/part_000)

A `remote_proxy_t` carries the session id, the remote node name and the
correlation id `last_request_id`.  The messages the proxy emits towards the
remote side (`remote_proxy_relay_response`, `remote_proxy_relay_event`,
`remote_proxy_notify_destroy`) are modelled as an output alphabet. -/

structure RemoteProxy where
  session_id : String
  node_name : String
  last_request_id : Nat
  is_local : Bool
  deriving Repr, DecidableEq

inductive ProxyMsg where
  /-- `LRMD_IPC_OP_RESPONSE` carrying `F_LRMD_IPC_SESSION` and `F_LRMD_IPC_MSG_ID` -/
  | response (session : String) (msg_id : Nat)
  /-- `LRMD_IPC_OP_EVENT` carrying `F_LRMD_IPC_SESSION` -/
  | event (session : String)
  /-- `LRMD_IPC_OP_DESTROY` -/
  | destroy (session : String)
  deriving Repr, DecidableEq

/-- `remote_proxy_relay_response(proxy, msg, msg_id)`: build a response envelope
for the proxy's session carrying the given msg id. -/
def remote_proxy_relay_response (p : RemoteProxy) (msg_id : Nat) : ProxyMsg :=
  ProxyMsg.response p.session_id msg_id

/-- `remote_proxy_relay_event(proxy, msg)`: build an event envelope for the
proxy's session. -/
def remote_proxy_relay_event (p : RemoteProxy) : ProxyMsg :=
  ProxyMsg.event p.session_id

/-- `remote_proxy_dispatch(buffer, length, userdata)`: a buffer emitted by the
local IPC service toward the remote node.  The buffer content is opaque here;
what the function inspects is whether `crm_ipc_buffer_flags(proxy->ipc)` has
`crm_ipc_proxied_relay_response` set.  If so, the buffer is relayed as a
response carrying `proxy->last_request_id`, which is then cleared to 0;
otherwise it is relayed as an event. -/
def remote_proxy_dispatch (relay_response_flag : Bool) (p : RemoteProxy) :
    RemoteProxy × List ProxyMsg :=
  if relay_response_flag then
    ({ p with last_request_id := 0 }, [remote_proxy_relay_response p p.last_request_id])
  else
    (p, [remote_proxy_relay_event p])

/-- A sequence of local-service buffers dispatched through
`remote_proxy_dispatch`, each abstracted to its relay-response flag. -/
def remote_proxy_dispatch_list (buffers : List Bool) (p : RemoteProxy) :
    RemoteProxy × List ProxyMsg :=
  match buffers with
  | [] => (p, [])
  | b :: rest =>
    let s1 := remote_proxy_dispatch b p
    let s2 := remote_proxy_dispatch_list rest s1.1
    (s2.1, s1.2 ++ s2.2)

/-- The `LRMD_IPC_OP_REQUEST` branch of `remote_proxy_cb` for a request whose
`F_LRMD_IPC_MSG_FLAGS` include `crm_ipc_proxied`, for a known, non-local,
connected session: `proxy->last_request_id` is first reset to 0, then the
request is forwarded with `crm_ipc_send`.  On failure (`rc < 0`, modelled by
`send_ok = false`) a nack reply is immediately relayed as a response carrying
the request's msg id; on success the request's msg id is recorded in
`last_request_id` so the eventual answer can be correlated. -/
def remote_proxy_cb_proxied_request (send_ok : Bool) (p : RemoteProxy) (msg_id : Nat) :
    RemoteProxy × List ProxyMsg :=
  let p0 := { p with last_request_id := 0 }
  if send_ok then
    ({ p0 with last_request_id := msg_id }, [])
  else
    (p0, [remote_proxy_relay_response p0 msg_id])

/-! ## Attribute aggregation daemon (attrd, src/unnamed/part_001 lines 1960-3110)

An `attr_hash_entry_t` holds the per-attribute state: the pending value
(`value`), the last value known committed to the CIB (`stored_value`), the
dampening interval (`timeout`) and the armed dampening timer (`timer_id`,
0 when not armed).  Timer manipulation and scheduled work are recorded as
events. -/

structure AttrHashEntry where
  uuid : Option String
  id : String
  set : Option String
  cib_section : Option String
  value : Option String
  stored_value : Option String
  timeout : Int
  dampen : Option String
  timer_id : Nat
  user : Option String
  deriving Repr, DecidableEq

inductive AttrEvent where
  /-- `g_source_remove` on the dampening timer (`stop_attrd_timer`) -/
  | timerStopped (id : String)
  /-- `g_timeout_add(timeout, attrd_timer_callback, entry)` armed the timer -/
  | timerStarted (id : String)
  /-- `attrd_trigger_update(entry)`: immediate broadcast and commit scheduling -/
  | triggerUpdate (id : String)
  deriving Repr, DecidableEq

/-- `stop_attrd_timer(hash_entry)`: remove the dampening timer source if armed
and clear `timer_id`. -/
def stop_attrd_timer (e : AttrHashEntry) : AttrHashEntry × List AttrEvent :=
  if e.timer_id ≠ 0 then ({ e with timer_id := 0 }, [AttrEvent.timerStopped e.id])
  else (e, [])

/-- Whether a character list ends with the two characters `++`. -/
def ends_with_plus_plus : List Char → Bool
  | [] => false
  | [_] => false
  | [a, b] => a = '+' ∧ b = '+'
  | _ :: c :: rest => ends_with_plus_plus (c :: rest)

/-- Split a character list at the first occurrence of `+=`, if any. -/
def split_plus_eq : List Char → Option (List Char × List Char)
  | [] => none
  | '+' :: '=' :: rest => some ([], rest)
  | c :: rest => (split_plus_eq rest).map (fun p => (c :: p.1, p.2))

/-- The numeric value of a decimal digit character, if it is one. -/
def digit_val (c : Char) : Option Nat :=
  if 48 ≤ c.toNat ∧ c.toNat ≤ 57 then some (c.toNat - 48) else none

/-- Accumulate a decimal number over a character list; `none` on any
non-digit. -/
def digits_to_nat_go : Option Nat → List Char → Option Nat
  | acc, [] => acc
  | acc, c :: rest =>
    match acc, digit_val c with
    | some a, some d => digits_to_nat_go (some (a * 10 + d)) rest
    | _, _ => none

/-- A C-style signed integer reading of a string: optional leading minus,
decimal digits, defaulting to 0 when not numeric. -/
def parse_int_chars : List Char → Int
  | '-' :: rest => -(Int.ofNat ((digits_to_nat_go (some 0) rest).getD 0))
  | l => Int.ofNat ((digits_to_nat_go (some 0) l).getD 0)

/-- Modelled from the spec: the helper `attrd_value_needs_expansion` is
declared but not defined in this fragment.  Spec section 4.1
"expand(value, old)": values of the form `<prefix>++` or `<prefix>+=N` are
arithmetic increments; any other value passes through unchanged. -/
def attrd_value_needs_expansion (value : String) : Bool :=
  ends_with_plus_plus value.data || (split_plus_eq value.data).isSome

/-- Modelled from the spec: the increment denoted by a `<prefix>++` or
`<prefix>+=N` value applied to the old value read as a signed integer
(default 0 if not numeric); `attrd_expand_value` is declared but not defined
in this fragment. -/
def attrd_expand_value (value : String) (old : Option String) : Int :=
  let old_int : Int := parse_int_chars (old.getD "").data
  if ends_with_plus_plus value.data then old_int + 1
  else
    match split_plus_eq value.data with
    | some p => old_int + parse_int_chars p.2
    | none => old_int

/-- `expand_attr_value(value, old_value)` (part_001 line 2793): newly allocated
string with the expanded value, or NULL if the value is not of the increment
form. -/
def expand_attr_value (value : String) (old : Option String) : Option String :=
  if attrd_value_needs_expansion value then some (toString (attrd_expand_value value old))
  else none

/-- The start of `update_local_attr`: when the entry has no uuid yet and the
message carries `F_ATTRD_KEY`, the key is recorded as the entry's uuid. -/
def learn_uuid (msg_key : Option String) (e : AttrHashEntry) : AttrHashEntry :=
  if e.uuid = none then
    match msg_key with
    | some k => { e with uuid := some k }
    | none => e
  else e

/-- The local variable `value` as it stands after the expansion step of
`update_local_attr`: the raw message value, replaced by its expansion when the
increment syntax applies (a NULL message value is a delete and is never
expanded). -/
def produced_value (msg_value : Option String) (old : Option String) : Option String :=
  match msg_value with
  | some v =>
    match expand_attr_value v old with
    | some x => some x
    | none => some v
  | none => none

/-- `update_local_attr(msg, hash_entry)` (part_001 lines 2811-2862).
`fresh_timer` stands for the (non-zero) source id `g_timeout_add` returns when
the dampening timer is armed. -/
def update_local_attr (fresh_timer : Nat) (msg_value msg_key : Option String)
    (e0 : AttrHashEntry) : AttrHashEntry × List AttrEvent :=
  let e := learn_uuid msg_key e0
  if (safe_str_eq msg_value e.value && safe_str_eq msg_value e.stored_value) = true then
    (e, [])
  else
    let value := produced_value msg_value e.value
    if safe_str_eq value e.value = true ∧ e.timer_id ≠ 0 then
      (e, [])
    else
      let e1 := { e with value := value }
      let s2 := stop_attrd_timer e1
      if e1.timeout > 0 then
        ({ s2.1 with timer_id := fresh_timer }, s2.2 ++ [AttrEvent.timerStarted e1.id])
      else
        (s2.1, s2.2 ++ [AttrEvent.triggerUpdate e1.id])

/-- A concrete attribute entry whose node key (uuid) is not yet known, with
identical pending and committed value "1" and no timer armed. -/
def attrEntryNoUuid : AttrHashEntry :=
  { uuid := none, id := "a", set := none, cib_section := none, value := some "1",
    stored_value := some "1", timeout := 0, dampen := none, timer_id := 0, user := none }

/-! ## CIB commit completion (attrd_cib_callback, part_001 lines 2651-2709) -/

/-- `pcmk_ok` -/
def pcmk_ok : Int := 0

/-- errno `ENXIO` (no such device or address; the CIB reports it for a missing
section), 6 on Linux -/
def ENXIO_errno : Int := 6

/-- errno `ETIME` (timer expired; reported while a DC election is in
progress), 62 on Linux -/
def ETIME : Int := 62

/-- `pcmk_err_diff_failed` (206): a CIB diff failed to apply while syncing -/
def pcmk_err_diff_failed : Int := 206

inductive CibCbLog where
  | logDebug
  | logWarn
  | logErr
  deriving Repr, DecidableEq

/-- Apply `f` to the entry stored under key `k` of the attribute table. -/
def attr_hash_update (h : List (String × AttrHashEntry)) (k : String)
    (f : AttrHashEntry → AttrHashEntry) : List (String × AttrHashEntry) :=
  h.map (fun p => if p.1 = k then (p.1, f p.2) else p)

/-- `attrd_cib_callback(msg, call_id, rc, output, user_data)` (part_001 lines
2670-2709).  `user_data` is the `(attr, value)` pair recorded when the CIB
operation was submitted.  A `-ENXIO` result for a delete (NULL value) is first
remapped to success; otherwise a negative `call_id` returns after a warning.
On `pcmk_ok` the entry's `stored_value` becomes the submitted value; the
transient results `-pcmk_err_diff_failed`, `-ETIME` and `-ENXIO` are only
logged at warning level; anything else is logged as an error. -/
def attrd_cib_callback (attr_hash : List (String × AttrHashEntry))
    (call_id rc : Int) (data_attr : String) (data_value : Option String) :
    List (String × AttrHashEntry) × List CibCbLog :=
  let rc2 : Int := if data_value = none ∧ rc = - ENXIO_errno then pcmk_ok else rc
  if ¬ (data_value = none ∧ rc = - ENXIO_errno) ∧ call_id < 0 then
    (attr_hash, [CibCbLog.logWarn])
  else if rc2 = pcmk_ok then
    (attr_hash_update attr_hash data_attr (fun e => { e with stored_value := data_value }),
      [CibCbLog.logDebug])
  else if rc2 = -pcmk_err_diff_failed ∨ rc2 = - ETIME ∨ rc2 = - ENXIO_errno then
    (attr_hash, [CibCbLog.logWarn])
  else
    (attr_hash, [CibCbLog.logErr])

/-! ## Alert dispatch (src/src/lib/lrmd/lrmd_alerts.c) -/

/-- `is_set(word, bit)` from util.h: `(word & bit) == bit`. -/
def is_set (word bit : Nat) : Bool :=
  word &&& bit = bit

/-- `enum crm_alert_flags` (alerts_internal.h, outside this fragment): each
event kind is one bit of the entry's kind bitmask. -/
def crm_alert_node : Nat := 1

def crm_alert_fencing : Nat := 2

def crm_alert_resource : Nat := 4

def crm_alert_attribute : Nat := 8

/-- `crm_alert_entry_t`: one configured alert agent. -/
structure CrmAlertEntry where
  id : String
  path : String
  timeout : Int
  tstamp_format : String
  recipient : String
  /-- `select_attribute_name`: NULL when no attribute filter was configured -/
  select_attribute_name : Option (List String)
  flags : Nat
  deriving Repr, DecidableEq

/-- `is_target_alert(list, value)` (lrmd_alerts.c lines 89-110): FALSE for a
NULL value (the `CRM_CHECK`), TRUE for a NULL list, otherwise a linear
`strcmp` scan. -/
def is_target_alert (list : Option (List String)) (value : Option String) : Bool :=
  match value with
  | none => false
  | some v =>
    match list with
    | none => true
    | some l => l.any (fun s => s == v)

/-- `exec_alert_list(lrmd, alert_list, kind, attr_name, params)` (lrmd_alerts.c
lines 126-202), restricted to its control flow: which entries get their agent
executed, and the aggregate return code.  `exec_ok` models the result of
`lrmd->cmds->exec_alert` per entry (`rc >= 0`). -/
def exec_alert_list (exec_ok : CrmAlertEntry → Bool) (alert_list : List CrmAlertEntry)
    (kind : Nat) (attr_name : Option String) : List CrmAlertEntry × Int :=
  let executed := alert_list.filter (fun entry =>
    is_set entry.flags kind &&
      !(kind == crm_alert_attribute &&
          !(is_target_alert entry.select_attribute_name attr_name)))
  let any_failure := executed.any (fun e => !(exec_ok e))
  let any_success := executed.any exec_ok
  (executed, if any_failure then (if any_success then -1 else -2) else pcmk_ok)

/-! ## Service class discovery (part_001 lines 69-162) -/

/-- The discovery environment for the `service` alias: whether the LSB init
script exists on disk (`stat(LSB_ROOT_DIR/agent)`), whether systemd knows the
unit (`systemd_unit_exists`), and whether upstart knows the job
(`upstart_job_exists`). -/
structure ServiceDiscovery where
  lsb_agent_exists : String → Bool
  systemd_unit_exists : String → Bool
  upstart_job_exists : String → Bool

/-- `resources_find_service_class(agent)` (part_001 lines 69-102): first
service class that can provide the agent, probing LSB (a file existence
check), then systemd, then upstart; NULL otherwise. -/
def resources_find_service_class (env : ServiceDiscovery) (agent : String) : Option String :=
  if env.lsb_agent_exists agent then some "lsb"
  else if env.systemd_unit_exists agent then some "systemd"
  else if env.upstart_job_exists agent then some "upstart"
  else none

/-- `expand_resource_class(rsc, standard, agent)` (part_001 lines 141-162):
expand the `service` alias (case-insensitively) to the class found by
`resources_find_service_class`, defaulting to `lsb`; any other class is
returned unchanged. -/
def expand_resource_class (env : ServiceDiscovery) (standard agent : String) : String :=
  if strcasecmp_eq standard "service" then
    match resources_find_service_class env agent with
    | some found => found
    | none => "lsb"
  else standard

/-- The spec's description of the probe, written independently: a fixed probe
order over class names. -/
def class_provides (env : ServiceDiscovery) (agent : String) (cls : String) : Bool :=
  if cls = "lsb" then env.lsb_agent_exists agent
  else if cls = "systemd" then env.systemd_unit_exists agent
  else if cls = "upstart" then env.upstart_job_exists agent
  else false

/-! ## Resource action executor (libservices, part_001 lines 37-910)

The executor keeps four pieces of global state: the submission counter
`operations`, the in-flight list, the blocked list and the recurring table
(GHashTable keyed by the operation key).  Actions live behind pointers; we
model pointers as `Ref = Nat` into an explicit heap, GLists as `List Ref` and
the hash table as an association list with unique keys.  Side effects are
recorded as events. -/

abbrev Ref := Nat

/-- `enum op_status` (services.h): `PCMK_LRM_OP_DONE` -/
def PCMK_LRM_OP_DONE : Int := 0

/-- `enum op_status`: `PCMK_LRM_OP_CANCELLED` -/
def PCMK_LRM_OP_CANCELLED : Int := 1

/-- `enum op_status`: `PCMK_LRM_OP_ERROR` -/
def PCMK_LRM_OP_ERROR : Int := 4

/-- `svc_action_t` together with the parts of `svc_action_private_t` that the
tracking code touches.  `callback` and `cb_data` are opaque tokens;
`repeat_timer` is the GLib source id (0 = not armed); `pid` is 0 when no child
process exists. -/
structure SvcAction where
  id : String
  rsc : Option String
  action : Option String
  interval : Int
  timeout : Int
  standard : Option String
  provider : Option String
  agent : Option String
  sequence : Nat
  flags : Nat
  cancel : Bool
  status : Int
  pid : Nat
  synchronous : Bool
  callback : Option Nat
  cb_data : Option Nat
  repeat_timer : Nat
  exec : Option String
  args : List String
  params : List (String × String)
  deriving Repr, DecidableEq

/-- The zeroed action `calloc` produces; also the heap background value. -/
def blankSvcAction : SvcAction :=
  { id := "", rsc := none, action := none, interval := 0, timeout := 0, standard := none,
    provider := none, agent := none, sequence := 0, flags := 0, cancel := false, status := 0,
    pid := 0, synchronous := false, callback := none, cb_data := none, repeat_timer := 0,
    exec := none, args := [], params := [] }

/-- The executor's global state. -/
structure ExecState where
  operations : Nat
  inflight_ops : List Ref
  blocked_ops : List Ref
  recurring_actions : List (String × Ref)
  heap : Ref → SvcAction
  processing_blocked_ops : Bool

inductive ExecEvent where
  /-- `action_exec_helper(op)` was reached (an execution was attempted) -/
  | execCall (r : Ref)
  /-- the action's callback was invoked while its status was `status` -/
  | cbInvoked (r : Ref) (status : Int)
  /-- `mainloop_child_kill(pid)` -/
  | killSent (pid : Nat)
  /-- the action descriptor was released -/
  | freed (r : Ref)
  /-- `g_timeout_add(interval, recurring_action_timer, op)` armed the repeat timer -/
  | repeatTimerArmed (r : Ref)
  /-- `g_source_remove` on the repeat timer -/
  | repeatTimerRemoved (r : Ref)
  /-- `recurring_action_timer(dup)` was invoked directly (immediate re-execution) -/
  | recurringTimerFired (r : Ref)
  deriving Repr, DecidableEq

/-- Heap update at one reference. -/
def heapSet (h : Ref → SvcAction) (r : Ref) (a : SvcAction) : Ref → SvcAction :=
  fun x => if x = r then a else h x

/-- Modelled from the spec (section 6.5; `generate_op_key` is defined outside
this fragment): the canonical operation identity
`<rsc_id>_<operation>_<interval_ms>`. -/
def generate_op_key (rsc action : String) (interval : Int) : String :=
  rsc ++ "_" ++ action ++ "_" ++ toString interval

/-- `is_op_blocked(rsc)` (part_001 lines 855-869): whether any in-flight
operation is for the same resource. -/
def is_op_blocked (s : ExecState) (rsc : Option String) : Bool :=
  s.inflight_ops.any (fun r => safe_str_eq (s.heap r).rsc rsc)

/-- `inflight_systemd_or_upstart(op)` (part_001 lines 121-127): op uses a
service-bus class and sits on the in-flight list. -/
def inflight_systemd_or_upstart (s : ExecState) (r : Ref) : Bool :=
  (safe_str_eq (s.heap r).standard (some "systemd") ||
      safe_str_eq (s.heap r).standard (some "upstart")) &&
    s.inflight_ops.contains r

/-- `services_add_inflight_op(op)` (part_001 lines 794-807): append to the
in-flight list, only for ops that carry a resource name. -/
def services_add_inflight_op (s : ExecState) (r : Ref) : ExecState :=
  if (s.heap r).rsc.isSome then { s with inflight_ops := s.inflight_ops ++ [r] } else s

/-- `action_exec_helper(op)` (part_001 lines 770-792) dispatches through
`upstart_job_exec`, `systemd_unit_exec` or `services_os_action_execute`, none
of which are part of this fragment.  Modelled from the spec: "On dispatch, the
submission is appended to the in-flight list (only if it has a non-empty
rsc_id and is asynchronous)" — on successful asynchronous dispatch the op
joins the in-flight list via `services_add_inflight_op` (which is in this
fragment); on failure the state is unchanged and FALSE is returned.  `exec_ok`
is the oracle for the transport's success. -/
def action_exec_helper (exec_ok : Ref → Bool) (s : ExecState) (r : Ref) :
    Bool × ExecState × List ExecEvent :=
  if exec_ok r then (true, services_add_inflight_op s r, [ExecEvent.execCall r])
  else (false, s, [ExecEvent.execCall r])

/-- `services_action_free(op)` (part_001 lines 562-612): guarded by three
`CRM_CHECK`s — an op still on the in-flight list, on the blocked list, or
whose key is still present in the recurring table is NOT freed (the call
returns leaving everything unchanged).  Otherwise the repeat timer is removed
and the descriptor released. -/
def services_action_free (s : ExecState) (r : Ref) : ExecState × List ExecEvent :=
  if r ∈ s.inflight_ops then (s, [])
  else if r ∈ s.blocked_ops then (s, [])
  else if (s.recurring_actions.lookup (s.heap r).id).isSome = true then (s, [])
  else
    let op := s.heap r
    if op.repeat_timer ≠ 0 then
      ({ s with heap := heapSet s.heap r { op with repeat_timer := 0 } },
        [ExecEvent.repeatTimerRemoved r, ExecEvent.freed r])
    else (s, [ExecEvent.freed r])

/-- `cancel_recurring_action(op)` (part_001 lines 614-629): drop the op's key
from the recurring table and disarm its repeat timer. -/
def cancel_recurring_action (s : ExecState) (r : Ref) : ExecState × List ExecEvent :=
  let op := s.heap r
  let s1 := { s with recurring_actions := s.recurring_actions.filter (fun p => !(p.1 == op.id)) }
  if op.repeat_timer ≠ 0 then
    ({ s1 with heap := heapSet s1.heap r { op with repeat_timer := 0 } },
      [ExecEvent.repeatTimerRemoved r])
  else (s1, [])

/-- `services_action_cancel(name, action, interval)` (part_001 lines 640-701).
`kill_ok` models the result of `mainloop_child_kill`. -/
def services_action_cancel (kill_ok : Bool) (s : ExecState)
    (name action : String) (interval : Int) : Bool × ExecState × List ExecEvent :=
  let id := generate_op_key name action interval
  match s.recurring_actions.lookup id with
  | none => (false, s, [])
  | some r =>
    let s1 := { s with heap := heapSet s.heap r { s.heap r with cancel := true } }
    let t2 := cancel_recurring_action s1 r
    let s2 := t2.1
    let op := s2.heap r
    if op.pid ≠ 0 then
      (kill_ok, s2, t2.2 ++ [ExecEvent.killSent op.pid])
    else if inflight_systemd_or_upstart s2 r then
      (false, s2, t2.2)
    else
      let s3 :=
        { s2 with heap := heapSet s2.heap r { op with status := PCMK_LRM_OP_CANCELLED } }
      let cbev :=
        if (s3.heap r).callback.isSome then [ExecEvent.cbInvoked r PCMK_LRM_OP_CANCELLED]
        else []
      let s4 := { s3 with blocked_ops := s3.blocked_ops.erase r }
      let t5 := services_action_free s4 r
      (true, t5.1, t2.2 ++ cbev ++ t5.2)

/-- `handle_duplicate_recurring(op)` (part_001 lines 739-768): when the
recurring table already holds a different action under the same key, transfer
the new submission's callback and user data onto the existing entry (when a
callback was supplied), immediately re-fire the existing entry when it is
currently executing, and attempt to free the new submission.
`dup_update_callback` is the callback/user-data transfer step (part_001 lines
748-753). -/
def dup_update_callback (s : ExecState) (r dup : Ref) : ExecState :=
  if (s.heap r).callback.isSome then
    let dupAct := { s.heap dup with callback := (s.heap r).callback, cb_data := (s.heap r).cb_data }
    let s0 := { s with heap := heapSet s.heap dup dupAct }
    { s0 with heap := heapSet s0.heap r { s0.heap r with cb_data := none } }
  else s

/-- The immediate re-execution step of `handle_duplicate_recurring`
(part_001 lines 754-761): when the existing entry is running, clear the new
submission's repeat timer and fire `recurring_action_timer` on the existing
entry. -/
def dup_refire (s : ExecState) (r dup : Ref) : ExecState × List ExecEvent :=
  if (s.heap dup).pid ≠ 0 then
    let t :=
      if (s.heap r).repeat_timer ≠ 0 then
        ({ s with heap := heapSet s.heap r { s.heap r with repeat_timer := 0 } },
          [ExecEvent.repeatTimerRemoved r])
      else (s, [])
    (t.1, t.2 ++ [ExecEvent.recurringTimerFired dup])
  else (s, [])

/-- `handle_duplicate_recurring(op)` (part_001 lines 739-768), composed from
the two steps above followed by the attempted free of the new submission. -/
def handle_duplicate_recurring (s : ExecState) (r : Ref) : Bool × ExecState × List ExecEvent :=
  match s.recurring_actions.lookup (s.heap r).id with
  | some dup =>
    if dup ≠ r then
      let s1 := dup_update_callback s r dup
      let t2 := dup_refire s1 r dup
      let t3 := services_action_free t2.1 r
      (true, t3.1, t2.2 ++ t3.2)
    else (false, s, [])
  | none => (false, s, [])

/-- `g_hash_table_replace` on the recurring table. -/
def assoc_replace (l : List (String × Ref)) (k : String) (v : Ref) : List (String × Ref) :=
  match l with
  | [] => [(k, v)]
  | p :: rest => if p.1 = k then (k, v) :: rest else p :: assoc_replace rest k v

/-- The tail of `services_action_async` (part_001 lines 844-849): queue the
submission as blocked when another op for the same resource is in flight,
otherwise dispatch it. -/
def async_queue_or_exec (exec_ok : Ref → Bool) (s : ExecState) (r : Ref) :
    Bool × ExecState × List ExecEvent :=
  if (s.heap r).rsc.isSome ∧ is_op_blocked s (s.heap r).rsc = true then
    (true, { s with blocked_ops := s.blocked_ops ++ [r] }, [])
  else action_exec_helper exec_ok s r

/-- Update the action at one reference with a field transformer. -/
def heapUpd (s : ExecState) (r : Ref) (f : SvcAction → SvcAction) : ExecState :=
  { s with heap := heapSet s.heap r (f (s.heap r)) }

/-- The body of `services_action_async` after the callback installation
(part_001 lines 834-849): recurring bookkeeping, then queue or dispatch. -/
def services_action_async_core (exec_ok : Ref → Bool) (s : ExecState) (r : Ref) :
    Bool × ExecState × List ExecEvent :=
  if (s.heap r).interval > 0 then
    let t2 := handle_duplicate_recurring s r
    if t2.1 then (true, t2.2.1, t2.2.2)
    else
      let s2 := { s with
        recurring_actions := assoc_replace s.recurring_actions (s.heap r).id r }
      async_queue_or_exec exec_ok s2 r
  else async_queue_or_exec exec_ok s r

/-- `services_action_async(op, action_callback)` (part_001 lines 826-850):
mark the op asynchronous, install the callback when one is supplied, then run
the recurring/queue/dispatch body. -/
def services_action_async (exec_ok : Ref → Bool) (s : ExecState) (r : Ref)
    (action_callback : Option Nat) : Bool × ExecState × List ExecEvent :=
  let s0 := heapUpd s r (fun a => { a with synchronous := false })
  let s1 :=
    match action_callback with
    | some cb => heapUpd s0 r (fun a => { a with callback := some cb })
    | none => s0
  services_action_async_core exec_ok s1 r

/-- Modelled from the spec: `operation_finalize` lives in the OS execution
layer outside this fragment.  Per spec section 4.2, completion processing for
an op: a cancelled recurring op gets status `cancelled` and leaves the
recurring table; a non-cancelled recurring op re-arms its repeat timer; the
callback is invoked exactly once; the op is removed from the in-flight and
blocked lists; a non-recurring asynchronous op is then freed.  The nested
blocked-queue drain that `services_untrack_op` would trigger is a no-op here
because this function is reached from inside the scan, where the recursion
guard `processing_blocked_ops` is set. -/
def finalize_reschedule (fresh_timer : Nat) (s : ExecState) (r : Ref) :
    (ExecState × List ExecEvent) × Bool :=
  let op := s.heap r
  if op.interval ≠ 0 then
    if op.cancel then
      let sA := { s with heap := heapSet s.heap r { op with status := PCMK_LRM_OP_CANCELLED } }
      (cancel_recurring_action sA r, false)
    else
      (({ s with heap := heapSet s.heap r { op with repeat_timer := fresh_timer } },
          [ExecEvent.repeatTimerArmed r]), true)
  else ((s, []), false)

/-- Completion processing (see the comment on `finalize_reschedule`):
reschedule, invoke the callback, untrack (the nested drain being cut off by
the recursion guard), free a non-recurring asynchronous op. -/
def operation_finalize (fresh_timer : Nat) (s : ExecState) (r : Ref) :
    ExecState × List ExecEvent :=
  let t1 := finalize_reschedule fresh_timer s r
  let sB := t1.1.1
  let cbev :=
    if (sB.heap r).callback.isSome then [ExecEvent.cbInvoked r (sB.heap r).status] else []
  let sC := { sB with inflight_ops := sB.inflight_ops.erase r,
                      blocked_ops := sB.blocked_ops.erase r }
  let t3 :=
    if ¬ t1.2 ∧ (sC.heap r).synchronous = false then services_action_free sC r
    else (sC, [])
  (t3.1, t1.1.2 ++ cbev ++ t3.2)

/-- The scan loop of `handle_blocked_ops` (part_001 lines 886-901) over a
snapshot of the blocked list: skip entries whose resource still has an
in-flight op, dispatch the rest, finalizing (status `PCMK_LRM_OP_ERROR`) any
whose dispatch fails.  Returns the final state, the sublist of dispatched
entries (`executed_ops`) and the events. -/
def handle_blocked_go (exec_ok : Ref → Bool) (fresh_timer : Nat) :
    List Ref → ExecState → ExecState × List Ref × List ExecEvent
  | [], s => (s, [], [])
  | r :: rest, s =>
    if is_op_blocked s (s.heap r).rsc = true then
      handle_blocked_go exec_ok fresh_timer rest s
    else
      let t1 := action_exec_helper exec_ok s r
      let t2 :=
        if t1.1 then (t1.2.1, ([] : List ExecEvent))
        else
          let errAct := { t1.2.1.heap r with status := PCMK_LRM_OP_ERROR }
          let sE := { t1.2.1 with heap := heapSet t1.2.1.heap r errAct }
          operation_finalize fresh_timer sE r
      let t3 := handle_blocked_go exec_ok fresh_timer rest t2.1
      (t3.1, r :: t3.2.1, t1.2.2 ++ t2.2 ++ t3.2.2)

/-- `handle_blocked_ops()` (part_001 lines 871-910): guarded by
`processing_blocked_ops`, scan the blocked list, then drop the dispatched
entries from it. -/
def handle_blocked_ops (exec_ok : Ref → Bool) (fresh_timer : Nat) (s : ExecState) :
    ExecState × List ExecEvent :=
  if s.processing_blocked_ops then (s, [])
  else
    let s1 := { s with processing_blocked_ops := true }
    let t2 := handle_blocked_go exec_ok fresh_timer s1.blocked_ops s1
    let s3 := { t2.1 with
      blocked_ops := t2.2.1.foldl (fun l x => l.erase x) t2.1.blocked_ops }
    ({ s3 with processing_blocked_ops := false }, t2.2.2)

/-- `services_untrack_op(op)` (part_001 lines 809-824): remove a completed op
from the in-flight and blocked lists, then drain the blocked queue. -/
def services_untrack_op (exec_ok : Ref → Bool) (fresh_timer : Nat) (s : ExecState) (r : Ref) :
    ExecState × List ExecEvent :=
  let s1 := { s with inflight_ops := s.inflight_ops.erase r,
                     blocked_ops := s.blocked_ops.erase r }
  handle_blocked_ops exec_ok fresh_timer s1

/-! ## Action creation (resources_action_create, part_001 lines 164-364) -/

/-- `crm_strlen_zero(s)`: NULL pointer or empty string. -/
def crm_strlen_zero (s : Option String) : Bool :=
  match s with
  | none => true
  | some v => v.data.isEmpty

/-- `crm_provider_required(standard)` is declared in
src/src/include/crm/common/util.h but defined outside this fragment.  Modelled
from the spec ("if the class requires a provider ... require non-empty
provider") and from the one branch of `resources_action_create` that consumes
the provider (the OCF branch, part_001 lines 225-235): only the OCF class
requires a provider. -/
def crm_provider_required (standard : Option String) : Bool :=
  safe_str_eq standard (some "ocf")

/-- Build-time path constant `LSB_ROOT_DIR` (init script directory). -/
def LSB_ROOT_DIR : String := "/etc/init.d"

/-- Build-time path constant `OCF_ROOT_DIR`. -/
def OCF_ROOT_DIR : String := "/usr/lib/ocf"

/-- Build-time path constant `HB_RA_DIR`. -/
def HB_RA_DIR : String := "/etc/ha.d/resource.d"

/-- Build-time path constant `NAGIOS_PLUGIN_DIR`. -/
def NAGIOS_PLUGIN_DIR : String := "/usr/libexec/nagios/plugins"

/-- The heartbeat-class positional parameter loop (part_001 lines 268-280):
parameters keyed by the decimal strings "1".."252" (`MAX_ARGC` is 255 in
services_private.h, outside this fragment), in index order, missing keys
skipped. -/
def hb_positional_args (params : List (String × String)) : List String :=
  (List.range 252).filterMap (fun i => params.lookup (toString (i + 1)))

/-- Whether the first list is an initial segment of the second. -/
def chars_begin_with : List Char → List Char → Bool
  | [], _ => true
  | _ :: _, [] => false
  | p :: ps, c :: cs => p = c && chars_begin_with ps cs

/-- `strstr`-style containment of `pat` in a character list. -/
def chars_contain (pat : List Char) : List Char → Bool
  | [] => pat.isEmpty
  | c :: rest => chars_begin_with pat (c :: rest) || chars_contain pat rest

/-- The nagios parameter loop (part_001 lines 317-343): `--key value` pairs
for each parameter, skipping `XML_ATTR_CRM_VERSION` ("crm_feature_set") and
keys containing `CRM_meta_`; the argument vector is capped by `MAX_ARGC`
(126 pairs). -/
def nagios_param_args (params : List (String × String)) : List String :=
  ((params.filter (fun p =>
      !(safe_str_eq (some p.1) (some "crm_feature_set")) &&
        !(chars_contain ("CRM_meta_".data) p.1.data))).take 126).foldr
    (fun p acc => ("--" ++ p.1) :: p.2 :: acc) []

/-- `resources_action_create(name, standard, provider, agent, action,
interval, timeout, params, flags)` (part_001 lines 164-364).  Validation
failures (empty resource name, class, agent or operation, or a
provider-requiring class without provider) bail out before the descriptor is
allocated; the unknown-class branch (lines 346-350) frees the descriptor and
returns NULL, but only after `op->sequence = ++operations` (line 212) has
incremented the global submission counter.  No tracking table is touched on
any path. -/
def resources_action_create (env : ServiceDiscovery) (s : ExecState)
    (name standard provider agent action : Option String)
    (interval timeout : Int) (params : List (String × String)) (flags : Nat) :
    Option SvcAction × ExecState :=
  if crm_strlen_zero name then (none, s)
  else if crm_strlen_zero standard then (none, s)
  else if crm_provider_required standard && crm_strlen_zero provider then (none, s)
  else if crm_strlen_zero agent then (none, s)
  else if crm_strlen_zero action then (none, s)
  else
    let nameS := name.getD ""
    let agentS := agent.getD ""
    let actionRaw := action.getD ""
    let s1 := { s with operations := s.operations + 1 }
    let std := expand_resource_class env (standard.getD "") agentS
    let actionS :=
      if safe_str_eq (some actionRaw) (some "monitor") &&
          (strcasecmp_eq std "heartbeat" || strcasecmp_eq std "lsb") then "status"
      else actionRaw
    let base : SvcAction :=
      { blankSvcAction with
          id := generate_op_key nameS actionRaw interval,
          rsc := some nameS, action := some actionS, interval := interval,
          timeout := timeout, standard := some std, agent := some agentS,
          sequence := s.operations + 1, flags := flags }
    if crm_provider_required (some std) then
      let execPath := OCF_ROOT_DIR ++ "/resource.d/" ++ provider.getD "" ++ "/" ++ agentS
      (some { base with provider := provider, params := params,
                        exec := some execPath, args := [execPath, actionS] }, s1)
    else if strcasecmp_eq std "lsb" then
      let execPath :=
        if agentS.data.head? = some '/' then agentS else LSB_ROOT_DIR ++ "/" ++ agentS
      (some { base with exec := some execPath, args := [execPath, actionS] }, s1)
    else if strcasecmp_eq std "heartbeat" then
      let execPath :=
        if agentS.data.head? = some '/' then agentS else HB_RA_DIR ++ "/" ++ agentS
      (some { base with exec := some execPath,
                        args := execPath :: (hb_positional_args params ++ [actionS]) }, s1)
    else if strcasecmp_eq std "systemd" then
      (some { base with exec := some "systemd-dbus" }, s1)
    else if strcasecmp_eq std "upstart" then
      (some { base with exec := some "upstart-dbus" }, s1)
    else if strcasecmp_eq std "nagios" then
      let execPath :=
        if agentS.data.head? = some '/' then agentS else NAGIOS_PLUGIN_DIR ++ "/" ++ agentS
      let extra :=
        if safe_str_eq (some actionS) (some "monitor") && interval = 0 then ["--version"]
        else nagios_param_args params
      (some { base with exec := some execPath, args := execPath :: extra }, s1)
    else (none, s1)

/-- A minimal executor state: empty tables, blank heap. -/
def freshExecState : ExecState :=
  { operations := 0, inflight_ops := [], blocked_ops := [], recurring_actions := [],
    heap := fun _ => blankSvcAction, processing_blocked_ops := false }

/-- An idle recurring monitor entry used as the C4 witness: registered in the
recurring table under its identity, no child process, not in flight. -/
def idleMonitorAction : SvcAction :=
  { blankSvcAction with
      id := "r_monitor_5000", rsc := some "r", action := some "monitor",
      interval := 5000, standard := some "lsb", callback := some 1 }

/-- The executor state holding `idleMonitorAction` at reference 0. -/
def cancelIdleState : ExecState :=
  { operations := 1, inflight_ops := [], blocked_ops := [],
    recurring_actions := [("r_monitor_5000", 0)],
    heap := fun x => if x = 0 then idleMonitorAction else blankSvcAction,
    processing_blocked_ops := false }

/-- A recurring systemd monitor registered in the recurring table (reference
0) — callback 1, user data 2. -/
def dupMonitorAction : SvcAction :=
  { blankSvcAction with
      id := "r_monitor_5000", rsc := some "r", action := some "monitor",
      interval := 5000, standard := some "systemd", callback := some 1, cb_data := some 2 }

/-- A second submission with the same identity (reference 1) — callback 3,
user data 4. -/
def newMonitorAction : SvcAction :=
  { dupMonitorAction with callback := some 3, cb_data := some 4 }

/-- State in which the recurring table already maps `r_monitor_5000` to
reference 0 and reference 1 is the duplicate submission. -/
def dupState : ExecState :=
  { operations := 2, inflight_ops := [], blocked_ops := [],
    recurring_actions := [("r_monitor_5000", 0)],
    heap := fun x =>
      if x = 0 then dupMonitorAction else if x = 1 then newMonitorAction else blankSvcAction,
    processing_blocked_ops := false }

/-- `dupState` with the existing recurring entry (reference 0) in flight. -/
def dupStateInflight : ExecState := { dupState with inflight_ops := [0] }

/-- The set of class names `resources_action_create` can build a descriptor
for (the branchs of part_001 lines 225-345). -/
def known_resource_standard (std : String) : Bool :=
  crm_provider_required (some std) || strcasecmp_eq std "lsb" ||
    strcasecmp_eq std "heartbeat" || strcasecmp_eq std "systemd" ||
    strcasecmp_eq std "upstart" || strcasecmp_eq std "nagios"

/-- The discovery environment in which no probe succeeds. -/
def noDiscovery : ServiceDiscovery :=
  { lsb_agent_exists := fun _ => false, systemd_unit_exists := fun _ => false,
    upstart_job_exists := fun _ => false }

/-! ## Per-resource serialization (C1) -/

/-- The resource names of the in-flight operations, in list order. -/
def inflight_rscs (s : ExecState) : List (Option String) :=
  s.inflight_ops.map (fun r => (s.heap r).rsc)

/-- Spec section 3 invariant: at most one in-flight action per resource id —
the in-flight resource names are pairwise distinct (under the executor's own
`safe_str_eq` comparison). -/
def InflightSerialized (s : ExecState) : Prop :=
  List.Pairwise (fun a b => safe_str_eq a b = false) (inflight_rscs s)

/-- Two states agreeing on the in-flight list and pointwise on every action's
resource name. -/
def RscFrame (s s2 : ExecState) : Prop :=
  s2.inflight_ops = s.inflight_ops ∧ ∀ x, (s2.heap x).rsc = (s.heap x).rsc

/-- A start action for resource "r", used as the in-flight op of the C1
witness (reference 0). -/
def startAction : SvcAction :=
  { blankSvcAction with
      id := "r_start_0", rsc := some "r", action := some "start",
      interval := 0, standard := some "lsb" }

/-- A non-recurring monitor for the same resource "r" (reference 1). -/
def monAction : SvcAction :=
  { blankSvcAction with
      id := "r_monitor_0", rsc := some "r", action := some "monitor",
      interval := 0, standard := some "lsb" }

/-- Executor state with the start action in flight and nothing queued. -/
def busyState : ExecState :=
  { operations := 2, inflight_ops := [0], blocked_ops := [], recurring_actions := [],
    heap := fun x =>
      if x = 0 then startAction else if x = 1 then monAction else blankSvcAction,
    processing_blocked_ops := false }

/-! ## Theorems -/

theorem safe_str_eq_refl (a : Option String) : safe_str_eq a a = true := by
  cases a <;> simp [safe_str_eq, strcasecmp_eq]

theorem safe_str_eq_symm (a b : Option String) : safe_str_eq a b = safe_str_eq b a := by
  cases a <;> cases b <;> simp [safe_str_eq, strcasecmp_eq, eq_comm]

theorem remote_proxy_dispatch_session (b : Bool) (p : RemoteProxy) :
    (remote_proxy_dispatch b p).1.session_id = p.session_id := by
  unfold remote_proxy_dispatch
  split <;> rfl

theorem remote_proxy_dispatch_list_id_zero (buffers : List Bool) (p : RemoteProxy)
    (h : p.last_request_id = 0) (m : Nat) (hm : m ≠ 0) :
    (remote_proxy_dispatch_list buffers p).1.last_request_id = 0 ∧
      (remote_proxy_dispatch_list buffers p).2.count (ProxyMsg.response p.session_id m) = 0 := by
  induction buffers generalizing p with
  | nil => simpa [remote_proxy_dispatch_list]
  | cons b rest ih =>
    cases b with
    | false =>
      have h2 := ih p h
      simp [remote_proxy_dispatch_list, remote_proxy_dispatch, remote_proxy_relay_event,
        List.count_cons] at h2 ⊢
      exact h2
    | true =>
      have h2 := ih { p with last_request_id := 0 } rfl
      simp [remote_proxy_dispatch_list, remote_proxy_dispatch, remote_proxy_relay_response,
        List.count_cons, h] at h2 ⊢
      refine ⟨h2.1, h2.2, fun hcontra => hm hcontra.symm⟩

theorem remote_proxy_response_count (buffers : List Bool) (p : RemoteProxy) (m : Nat)
    (h : p.last_request_id = m) (hm : m ≠ 0) :
    (remote_proxy_dispatch_list buffers p).2.count (ProxyMsg.response p.session_id m) =
      (if buffers.contains true then 1 else 0) := by
  induction buffers generalizing p with
  | nil => simp [remote_proxy_dispatch_list]
  | cons b rest ih =>
    cases b with
    | false =>
      have h2 := ih p h
      simp [remote_proxy_dispatch_list, remote_proxy_dispatch, remote_proxy_relay_event,
        List.count_cons] at h2 ⊢
      exact h2
    | true =>
      have h2 := remote_proxy_dispatch_list_id_zero rest { p with last_request_id := 0 } rfl m hm
      simp [remote_proxy_dispatch_list, remote_proxy_dispatch, remote_proxy_relay_response,
        List.count_cons, h] at h2 ⊢
      exact h2.2

/-- C5: a successfully forwarded proxied request records its `msg_id` in
`last_request_id`; starting from a recorded non-zero id `m`, any sequence of
locally emitted buffers produces exactly one relayed response carrying `m`
when some buffer has the proxied-relay-response flag (and none otherwise),
the first such buffer clears the recorded id to zero, and every buffer without
the flag is relayed as an event. -/
theorem proxied_request_single_response_correlation
    (p : RemoteProxy) (m : Nat) (buffers : List Bool) (hm : m ≠ 0)
    (hrec : p.last_request_id = m) :
    ((remote_proxy_cb_proxied_request true p m).1.last_request_id = m ∧
       (remote_proxy_cb_proxied_request true p m).2 = []) ∧
    ((remote_proxy_dispatch_list buffers p).2.count (ProxyMsg.response p.session_id m) =
       (if buffers.contains true then 1 else 0)) ∧
    ((remote_proxy_dispatch true p).1.last_request_id = 0 ∧
       (remote_proxy_dispatch true p).2 = [ProxyMsg.response p.session_id m]) ∧
    ((remote_proxy_dispatch false p).1 = p ∧
       (remote_proxy_dispatch false p).2 = [ProxyMsg.event p.session_id]) := by
  refine ⟨⟨rfl, rfl⟩, remote_proxy_response_count buffers p m hrec hm, ⟨rfl, ?_⟩, rfl, rfl⟩
  simp [remote_proxy_dispatch, remote_proxy_relay_response, hrec]

/-- Witness for C5 at a concrete proxy session: id 7 recorded, buffer sequence
event, response, event, response: exactly one response carries id 7. -/
theorem proxied_request_single_response_correlation_witness :
    (7 ≠ 0 ∧
       (RemoteProxy.mk "s1" "node1" 7 false).last_request_id = 7) ∧
    (remote_proxy_dispatch_list [false, true, false, true]
        (RemoteProxy.mk "s1" "node1" 7 false)).2.count (ProxyMsg.response "s1" 7) = 1 :=
  ⟨⟨by decide, rfl⟩, by
    have h := proxied_request_single_response_correlation
      (RemoteProxy.mk "s1" "node1" 7 false) 7 [false, true, false, true] (by decide) rfl
    simpa using h.2.1⟩

/-- C2 counterexample: an update carrying value "1" (equal to both the pending
and the committed value) together with a key "K", applied to an entry whose
uuid is still unknown, does NOT leave the entry unchanged: the entry records
the key as its uuid before the non-change check, so the resulting entry
differs from the original.  (No timer or scheduled work changes: the event
list is empty.) -/
theorem update_local_attr_nonchange_learns_uuid_cex :
    ¬ ((update_local_attr 1 (some "1") (some "K") attrEntryNoUuid).1 = attrEntryNoUuid) ∧
      (update_local_attr 1 (some "1") (some "K") attrEntryNoUuid).2 = [] := by
  decide

/-- C2 (amended): apart from recording the message's node key into a
previously unknown uuid, `update_local_attr` is idempotent in value: (a) an
update whose value equals both the pending value and the committed value
leaves the entry, its timer and all scheduled work unchanged; (b) an update
arriving while the dampening timer is armed whose produced (post-expansion)
value equals the pending value is a no-op as well. -/
theorem update_local_attr_value_idempotent (fresh_timer : Nat)
    (msg_value msg_key : Option String) (e : AttrHashEntry) :
    (safe_str_eq msg_value (learn_uuid msg_key e).value = true →
     safe_str_eq msg_value (learn_uuid msg_key e).stored_value = true →
     update_local_attr fresh_timer msg_value msg_key e = (learn_uuid msg_key e, [])) ∧
    ((learn_uuid msg_key e).timer_id ≠ 0 →
     safe_str_eq (produced_value msg_value (learn_uuid msg_key e).value)
         (learn_uuid msg_key e).value = true →
     update_local_attr fresh_timer msg_value msg_key e = (learn_uuid msg_key e, [])) := by
  constructor
  · intro h1 h2
    simp [update_local_attr, h1, h2]
  · intro h1 h2
    unfold update_local_attr
    by_cases h3 : (safe_str_eq msg_value (learn_uuid msg_key e).value &&
        safe_str_eq msg_value (learn_uuid msg_key e).stored_value) = true
    · simp [h3]
    · simp [h3, h1, h2]

/-- Witness for the amended C2 at a concrete entry and message: entry with
pending value "5", committed value "5" and no expansion in the message. -/
theorem update_local_attr_value_idempotent_witness :
    update_local_attr 9 (some "5") none
        { uuid := some "u", id := "a", set := none, cib_section := none, value := some "5",
          stored_value := some "5", timeout := 200, dampen := none, timer_id := 0,
          user := none } =
      ({ uuid := some "u", id := "a", set := none, cib_section := none, value := some "5",
         stored_value := some "5", timeout := 200, dampen := none, timer_id := 0,
         user := none }, []) ∧
    update_local_attr 9 (some "7") none
        { uuid := some "u", id := "a", set := none, cib_section := none, value := some "7",
          stored_value := some "5", timeout := 200, dampen := none, timer_id := 4,
          user := none } =
      ({ uuid := some "u", id := "a", set := none, cib_section := none, value := some "7",
         stored_value := some "5", timeout := 200, dampen := none, timer_id := 4,
         user := none }, []) := by
  constructor
  · exact (update_local_attr_value_idempotent 9 (some "5") none _).1 (by decide) (by decide)
  · exact (update_local_attr_value_idempotent 9 (some "7") none _).2 (by decide) (by decide)

theorem attr_hash_update_lookup (h : List (String × AttrHashEntry)) (k : String)
    (f : AttrHashEntry → AttrHashEntry) :
    (attr_hash_update h k f).lookup k = (h.lookup k).map f := by
  induction h with
  | nil => rfl
  | cons p t ih =>
    obtain ⟨a, b⟩ := p
    by_cases hk : a = k
    · subst hk
      have h1 : attr_hash_update ((a, b) :: t) a f = (a, f b) :: attr_hash_update t a f := by
        simp [attr_hash_update]
      rw [h1]
      simp [List.lookup]
    · have h1 : attr_hash_update ((a, b) :: t) k f = (a, b) :: attr_hash_update t k f := by
        simp [attr_hash_update, hk]
      have hk2 : (k == a) = false := by
        simpa [beq_iff_eq] using fun hcontra => hk hcontra.symm
      rw [h1]
      simp [List.lookup, hk2, ih]

/-- C7: for the completion callback of an attribute commit, with a
non-negative CIB call id: (a) on success the entry's `stored_value` is set to
the submitted value; (b) the benign transient errors (diff-failed, election
in progress, and missing-section for a non-delete) are only logged at warning
level and leave the table unchanged; (c) a missing-section (`-ENXIO`) result
for a delete (NULL value) is treated as success: the entry's `stored_value`
is cleared and only a debug log is produced. -/
theorem attrd_cib_callback_semantics (h : List (String × AttrHashEntry))
    (call_id rc : Int) (attr : String) (v : Option String) (e : AttrHashEntry)
    (hcall : 0 ≤ call_id) (hfound : h.lookup attr = some e) :
    (rc = pcmk_ok →
       (attrd_cib_callback h call_id rc attr v).1.lookup attr =
           some { e with stored_value := v } ∧
         (attrd_cib_callback h call_id rc attr v).2 = [CibCbLog.logDebug]) ∧
    ((rc = -pcmk_err_diff_failed ∨ rc = - ETIME ∨ (rc = - ENXIO_errno ∧ v ≠ none)) →
       attrd_cib_callback h call_id rc attr v = (h, [CibCbLog.logWarn])) ∧
    (rc = - ENXIO_errno → v = none →
       (attrd_cib_callback h call_id rc attr v).1.lookup attr =
           some { e with stored_value := none } ∧
         (attrd_cib_callback h call_id rc attr v).2 = [CibCbLog.logDebug]) := by
  have hnotlt : ¬ (call_id < 0) := not_lt.mpr hcall
  refine ⟨?_, ?_, ?_⟩
  · intro hrc
    subst hrc
    have hne : ¬ (v = none ∧ pcmk_ok = - ENXIO_errno) := by
      rintro ⟨-, hbad⟩
      simp [pcmk_ok, ENXIO_errno] at hbad
    simp [attrd_cib_callback, hne, hnotlt, attr_hash_update_lookup, hfound, pcmk_ok]
  · rintro (hrc | hrc | ⟨hrc, hv⟩) <;> subst hrc
    · have hne : ¬ (v = none ∧ -pcmk_err_diff_failed = - ENXIO_errno) := by
        rintro ⟨-, hbad⟩
        simp [pcmk_err_diff_failed, ENXIO_errno] at hbad
      simp [attrd_cib_callback, hne, hnotlt, pcmk_ok, pcmk_err_diff_failed, ENXIO_errno, ETIME]
    · have hne : ¬ (v = none ∧ - ETIME = - ENXIO_errno) := by
        rintro ⟨-, hbad⟩
        simp [ETIME, ENXIO_errno] at hbad
      simp [attrd_cib_callback, hne, hnotlt, pcmk_ok, pcmk_err_diff_failed, ENXIO_errno, ETIME]
    · have hne : ¬ (v = none ∧ - ENXIO_errno = - ENXIO_errno) := by
        rintro ⟨hv2, -⟩
        exact hv hv2
      simp [attrd_cib_callback, hne, hnotlt, hv, pcmk_ok, pcmk_err_diff_failed, ENXIO_errno,
        ETIME]
  · intro hrc hv
    subst hrc hv
    simp [attrd_cib_callback, hnotlt, attr_hash_update_lookup, hfound, pcmk_ok, ENXIO_errno]

/-- Witness for C7 at a concrete table: committing value "3" for attribute
"a" with rc = pcmk_ok stores "3"; rc = -ETIME (62) leaves the table
unchanged; an `-ENXIO` delete result clears the stored value. -/
theorem attrd_cib_callback_semantics_witness :
    ((0 : Int) ≤ 12 ∧ [("a", attrEntryNoUuid)].lookup "a" = some attrEntryNoUuid) ∧
    (attrd_cib_callback [("a", attrEntryNoUuid)] 12 0 "a" (some "3")).1.lookup "a" =
        some { attrEntryNoUuid with stored_value := some "3" } ∧
    attrd_cib_callback [("a", attrEntryNoUuid)] 12 (-62) "a" (some "3") =
        ([("a", attrEntryNoUuid)], [CibCbLog.logWarn]) ∧
    (attrd_cib_callback [("a", attrEntryNoUuid)] 12 (-6) "a" none).1.lookup "a" =
        some { attrEntryNoUuid with stored_value := none } := by
  have h := attrd_cib_callback_semantics [("a", attrEntryNoUuid)] 12 0 "a" (some "3")
    attrEntryNoUuid (by decide) (by decide)
  have h2 := attrd_cib_callback_semantics [("a", attrEntryNoUuid)] 12 (-62) "a" (some "3")
    attrEntryNoUuid (by decide) (by decide)
  have h3 := attrd_cib_callback_semantics [("a", attrEntryNoUuid)] 12 (-6) "a" none
    attrEntryNoUuid (by decide) (by decide)
  refine ⟨⟨by decide, by decide⟩, (h.1 rfl).1, ?_, (h3.2.2 rfl rfl).1⟩
  exact h2.2.1 (Or.inr (Or.inl (by simp [ETIME])))

/-- C8: over any alert list and event kind, an entry's agent is executed (the
entry appears in the executed set of `exec_alert_list`) if and only if the
entry is in the list, its kind bitmask includes the event kind, and — for
attribute events carrying attribute name `a` — its attribute allow-list is
absent (empty) or contains `a`; entries failing either filter are skipped. -/
theorem is_target_alert_some (l : List String) (a : String) :
    is_target_alert (some l) (some a) = true ↔ a ∈ l := by
  simp [is_target_alert, List.any_eq_true]

theorem exec_alert_list_executes_iff (exec_ok : CrmAlertEntry → Bool)
    (alert_list : List CrmAlertEntry) (kind : Nat) (a : String) (entry : CrmAlertEntry) :
    entry ∈ (exec_alert_list exec_ok alert_list kind (some a)).1 ↔
      (entry ∈ alert_list ∧ entry.flags &&& kind = kind ∧
        (kind = crm_alert_attribute →
          entry.select_attribute_name = none ∨ a ∈ entry.select_attribute_name.getD [])) := by
  rw [exec_alert_list]
  simp only [List.mem_filter, Bool.and_eq_true, is_set, decide_eq_true_eq, Bool.not_eq_eq_eq_not,
    Bool.not_true, Bool.not_false, Bool.and_eq_false_imp, beq_iff_eq]
  constructor
  · rintro ⟨hmem, hset, hrest⟩
    refine ⟨hmem, hset, fun hkind => ?_⟩
    have h2 := hrest hkind
    cases hsel : entry.select_attribute_name with
    | none => exact Or.inl rfl
    | some l =>
      rw [hsel] at h2
      refine Or.inr ?_
      simpa using (is_target_alert_some l a).mp (by simpa using h2)
  · rintro ⟨hmem, hset, hrest⟩
    refine ⟨hmem, hset, fun hkind => ?_⟩
    rcases hrest hkind with hnone | hmem2
    · simp [is_target_alert, hnone]
    · cases hsel : entry.select_attribute_name with
      | none => simp [is_target_alert]
      | some l =>
        rw [hsel] at hmem2
        simp only [Option.getD_some] at hmem2
        exact (is_target_alert_some l a).mpr hmem2

/-- Every action `resources_action_create` actually returns carries as its
class the result of `expand_resource_class` on the requested class and agent:
creation resolves the class through the expansion and stores nothing else. -/
theorem resources_action_create_standard (env : ServiceDiscovery) (s : ExecState)
    (name standard provider agent action : Option String) (iv tm : Int)
    (params : List (String × String)) (fl : Nat) (a : SvcAction)
    (ha : (resources_action_create env s name standard provider agent action
        iv tm params fl).1 = some a) :
    a.standard = some (expand_resource_class env (standard.getD "") (agent.getD "")) := by
  unfold resources_action_create at ha
  dsimp only at ha
  by_cases c1 : crm_strlen_zero name = true
  · rw [if_pos c1] at ha; exact Option.noConfusion ha
  rw [if_neg c1] at ha
  by_cases c2 : crm_strlen_zero standard = true
  · rw [if_pos c2] at ha; exact Option.noConfusion ha
  rw [if_neg c2] at ha
  by_cases c3 : (crm_provider_required standard && crm_strlen_zero provider) = true
  · rw [if_pos c3] at ha; exact Option.noConfusion ha
  rw [if_neg c3] at ha
  by_cases c4 : crm_strlen_zero agent = true
  · rw [if_pos c4] at ha; exact Option.noConfusion ha
  rw [if_neg c4] at ha
  by_cases c5 : crm_strlen_zero action = true
  · rw [if_pos c5] at ha; exact Option.noConfusion ha
  rw [if_neg c5] at ha
  generalize hstd : expand_resource_class env (standard.getD "") (agent.getD "") = std at ha ⊢
  by_cases c6 : crm_provider_required (some std) = true
  · rw [if_pos c6] at ha; rw [← Option.some.inj ha]
  rw [if_neg c6] at ha
  by_cases c7 : strcasecmp_eq std "lsb" = true
  · rw [if_pos c7] at ha; rw [← Option.some.inj ha]
  rw [if_neg c7] at ha
  by_cases c8 : strcasecmp_eq std "heartbeat" = true
  · rw [if_pos c8] at ha; rw [← Option.some.inj ha]
  rw [if_neg c8] at ha
  by_cases c9 : strcasecmp_eq std "systemd" = true
  · rw [if_pos c9] at ha; rw [← Option.some.inj ha]
  rw [if_neg c9] at ha
  by_cases c10 : strcasecmp_eq std "upstart" = true
  · rw [if_pos c10] at ha; rw [← Option.some.inj ha]
  rw [if_neg c10] at ha
  by_cases c11 : strcasecmp_eq std "nagios" = true
  · rw [if_pos c11] at ha; rw [← Option.some.inj ha]
  rw [if_neg c11] at ha
  exact Option.noConfusion ha

/-- C6: for every action created with the `service` alias class, the class is
resolved by probing in the fixed order lsb (script-init), systemd, upstart and
replaced by the first class that provides the agent, defaulting to lsb when
none does: the expansion equals the spec-side ordered probe, and every action
the creation returns carries that resolved class. -/
theorem expand_resource_class_probe_order (env : ServiceDiscovery) (standard agent : String)
    (s : ExecState) (name provider action : Option String) (iv tm : Int)
    (params : List (String × String)) (fl : Nat)
    (halias : strcasecmp_eq standard "service" = true) :
    (expand_resource_class env standard agent =
      ((["lsb", "systemd", "upstart"].find? (class_provides env agent)).getD "lsb")) ∧
    ∀ a, (resources_action_create env s name (some standard) provider (some agent)
        action iv tm params fl).1 = some a →
      a.standard =
        some ((["lsb", "systemd", "upstart"].find? (class_provides env agent)).getD "lsb") := by
  have h1 : expand_resource_class env standard agent =
      ((["lsb", "systemd", "upstart"].find? (class_provides env agent)).getD "lsb") := by
    by_cases h1 : env.lsb_agent_exists agent
    · simp [expand_resource_class, resources_find_service_class, class_provides, halias, h1,
        List.find?]
    · by_cases h2 : env.systemd_unit_exists agent
      · simp [expand_resource_class, resources_find_service_class, class_provides, halias, h1,
          h2, List.find?]
      · by_cases h3 : env.upstart_job_exists agent
        · simp [expand_resource_class, resources_find_service_class, class_provides, halias, h1,
            h2, h3, List.find?]
        · simp [expand_resource_class, resources_find_service_class, class_provides, halias, h1,
            h2, h3, List.find?]
  refine ⟨h1, fun a ha => ?_⟩
  have h2 := resources_action_create_standard env s name (some standard) provider (some agent)
      action iv tm params fl a ha
  simp only [Option.getD_some] at h2
  rw [h1] at h2
  exact h2

/-- Witness for C6: agent known to systemd but with no LSB script resolves the
`service` alias to systemd, and an action created for it carries class
systemd. -/
theorem expand_resource_class_probe_order_witness :
    strcasecmp_eq "service" "service" = true ∧
      expand_resource_class
          { lsb_agent_exists := fun _ => false, systemd_unit_exists := fun a => a == "foo",
            upstart_job_exists := fun _ => false } "service" "foo" = "systemd" ∧
      ∀ a, (resources_action_create
          { lsb_agent_exists := fun _ => false, systemd_unit_exists := fun a => a == "foo",
            upstart_job_exists := fun _ => false } freshExecState (some "r") (some "service")
          none (some "foo") (some "start") 0 20000 [] 0).1 = some a →
        a.standard = some "systemd" := by
  have h := expand_resource_class_probe_order
      { lsb_agent_exists := fun _ => false, systemd_unit_exists := fun a => a == "foo",
        upstart_job_exists := fun _ => false } "service" "foo" freshExecState (some "r") none
      (some "start") 0 20000 [] 0 (by decide)
  refine ⟨by decide, h.1.trans (by decide), fun a ha => (h.2 a ha).trans (by decide)⟩

theorem heapSet_same (h : Ref → SvcAction) (r : Ref) (a : SvcAction) :
    heapSet h r a r = a := by
  simp [heapSet]

theorem heapSet_other (h : Ref → SvcAction) (r x : Ref) (a : SvcAction) (hx : x ≠ r) :
    heapSet h r a x = h x := by
  simp [heapSet, hx]

/-- C10: `services_action_free` is guarded: called on an action still on the
in-flight list, on the blocked list, or whose key still resolves in the
recurring table, it returns leaving the state unchanged and freeing nothing;
consequently any action it actually frees is absent from all three tracking
structures at the time of the free. -/
theorem services_action_free_guarded (s : ExecState) (r : Ref) :
    ((r ∈ s.inflight_ops ∨ r ∈ s.blocked_ops ∨
        (s.recurring_actions.lookup (s.heap r).id).isSome = true) →
      services_action_free s r = (s, [])) ∧
    (ExecEvent.freed r ∈ (services_action_free s r).2 →
      r ∉ s.inflight_ops ∧ r ∉ s.blocked_ops ∧
        s.recurring_actions.lookup (s.heap r).id = none) := by
  constructor
  · intro h
    unfold services_action_free
    by_cases h1 : r ∈ s.inflight_ops
    · simp [h1]
    · by_cases h2 : r ∈ s.blocked_ops
      · simp [h1, h2]
      · by_cases h3 : (s.recurring_actions.lookup (s.heap r).id).isSome = true
        · simp [h1, h2, h3]
        · rcases h with h | h | h
          · exact absurd h h1
          · exact absurd h h2
          · exact absurd h h3
  · intro hev
    unfold services_action_free at hev
    by_cases h1 : r ∈ s.inflight_ops
    · simp [h1] at hev
    · by_cases h2 : r ∈ s.blocked_ops
      · simp [h1, h2] at hev
      · by_cases h3 : (s.recurring_actions.lookup (s.heap r).id).isSome = true
        · simp [h1, h2, h3] at hev
        · exact ⟨h1, h2, Option.not_isSome_iff_eq_none.mp h3⟩

/-- Witness for C10: in a state whose in-flight list holds reference 1,
freeing reference 1 is refused (state unchanged, nothing freed). -/
theorem services_action_free_guarded_witness :
    (1 ∈ ({ freshExecState with inflight_ops := [1] } : ExecState).inflight_ops ∨
       1 ∈ ({ freshExecState with inflight_ops := [1] } : ExecState).blocked_ops ∨
       ((({ freshExecState with inflight_ops := [1] } : ExecState)).recurring_actions.lookup
           ((({ freshExecState with inflight_ops := [1] } : ExecState)).heap 1).id).isSome =
         true) ∧
      services_action_free { freshExecState with inflight_ops := [1] } 1 =
        ({ freshExecState with inflight_ops := [1] }, []) :=
  ⟨Or.inl (by decide),
    (services_action_free_guarded { freshExecState with inflight_ops := [1] } 1).1
      (Or.inl (by decide))⟩

theorem lookup_filter_self (l : List (String × Ref)) (k : String) :
    (l.filter (fun p => !(p.1 == k))).lookup k = none := by
  induction l with
  | nil => rfl
  | cons p t ih =>
    by_cases hp : p.1 = k
    · simpa [List.filter_cons, hp] using ih
    · have hp2 : (p.1 == k) = false := beq_eq_false_iff_ne.mpr hp
      have hp3 : (k == p.1) = false := beq_eq_false_iff_ne.mpr (fun hc => hp hc.symm)
      simpa [List.filter_cons, hp2, List.lookup, hp3] using ih

/-- C4: cancellation targets the identity `(name, action, interval)`.
(i) If the identity is not in the recurring table, nothing is cancelled:
FALSE is returned and the state is unchanged.  (ii) If the matched action is
an in-flight systemd/upstart (service-bus) operation, it is marked cancelled
(`cancel = true`) but not freed, and the cancellation reports failure (FALSE).
(iii) If the matched action is idle (no child process and not on the
in-flight list), its status is set to `PCMK_LRM_OP_CANCELLED`, its callback
is invoked, the entry is freed, and the cancellation reports success. -/
theorem services_action_cancel_semantics (kill_ok : Bool) (s : ExecState)
    (name action : String) (interval : Int) :
    (s.recurring_actions.lookup (generate_op_key name action interval) = none →
      services_action_cancel kill_ok s name action interval = (false, s, [])) ∧
    (∀ r, s.recurring_actions.lookup (generate_op_key name action interval) = some r →
      (s.heap r).pid = 0 →
      (safe_str_eq (s.heap r).standard (some "systemd") = true ∨
        safe_str_eq (s.heap r).standard (some "upstart") = true) →
      r ∈ s.inflight_ops →
      (services_action_cancel kill_ok s name action interval).1 = false ∧
        ((services_action_cancel kill_ok s name action interval).2.1.heap r).cancel = true ∧
        ExecEvent.freed r ∉ (services_action_cancel kill_ok s name action interval).2.2) ∧
    (∀ r, s.recurring_actions.lookup (generate_op_key name action interval) = some r →
      (s.heap r).pid = 0 →
      r ∉ s.inflight_ops →
      s.blocked_ops.count r ≤ 1 →
      (s.heap r).callback.isSome = true →
      (services_action_cancel kill_ok s name action interval).1 = true ∧
        ((services_action_cancel kill_ok s name action interval).2.1.heap r).status =
          PCMK_LRM_OP_CANCELLED ∧
        ExecEvent.cbInvoked r PCMK_LRM_OP_CANCELLED ∈
          (services_action_cancel kill_ok s name action interval).2.2 ∧
        ExecEvent.freed r ∈ (services_action_cancel kill_ok s name action interval).2.2) := by
  refine ⟨?_, ?_, ?_⟩
  · intro h
    simp [services_action_cancel, h]
  · intro r hlook hpid hstd hin
    have hcon : s.inflight_ops.contains r = true := List.elem_iff.mpr hin
    have hstd2 : (safe_str_eq (s.heap r).standard (some "systemd") ||
        safe_str_eq (s.heap r).standard (some "upstart")) = true := by
      rcases hstd with h | h <;> simp [h]
    by_cases hrt : (s.heap r).repeat_timer = 0 <;>
      simp [services_action_cancel, hlook, cancel_recurring_action, inflight_systemd_or_upstart,
        heapSet_same, hpid, hrt, hcon, hstd2, hin]
  · intro r hlook hpid hnin hcount hcb
    have hcon : s.inflight_ops.contains r = false :=
      Bool.eq_false_iff.mpr (fun hc => hnin (List.elem_iff.mp hc))
    have hbl : r ∉ s.blocked_ops.erase r := by
      intro hc
      have h1 : 0 < (s.blocked_ops.erase r).count r := List.count_pos_iff.mpr hc
      rw [List.count_erase_self] at h1
      omega
    by_cases hrt : (s.heap r).repeat_timer = 0 <;>
      simp [services_action_cancel, hlook, cancel_recurring_action, services_action_free,
        inflight_systemd_or_upstart, heapSet_same, hpid, hrt, hcon, hcb, hnin, hbl,
        lookup_filter_self, PCMK_LRM_OP_CANCELLED]

/-- Witness for C4: cancelling the idle recurring monitor `(r, monitor,
5000)` succeeds, invokes the callback with status cancelled and frees the
entry; cancelling an identity absent from the table returns FALSE and
changes nothing. -/
theorem services_action_cancel_semantics_witness :
    (cancelIdleState.recurring_actions.lookup (generate_op_key "r" "monitor" 5000) = some 0 ∧
      (cancelIdleState.heap 0).pid = 0 ∧ (0 : Ref) ∉ cancelIdleState.inflight_ops ∧
      cancelIdleState.blocked_ops.count 0 ≤ 1 ∧
      (cancelIdleState.heap 0).callback.isSome = true) ∧
    ((services_action_cancel false cancelIdleState "r" "monitor" 5000).1 = true ∧
      ExecEvent.cbInvoked 0 PCMK_LRM_OP_CANCELLED ∈
        (services_action_cancel false cancelIdleState "r" "monitor" 5000).2.2 ∧
      ExecEvent.freed 0 ∈
        (services_action_cancel false cancelIdleState "r" "monitor" 5000).2.2) ∧
    services_action_cancel false cancelIdleState "x" "monitor" 5000 =
      (false, cancelIdleState, []) := by
  have h := (services_action_cancel_semantics false cancelIdleState "r" "monitor" 5000).2.2
    0 (by decide) (by decide) (by decide) (by decide) (by decide)
  have h2 := (services_action_cancel_semantics false cancelIdleState "x" "monitor" 5000).1
    (by decide)
  exact ⟨⟨by decide, by decide, by decide, by decide, by decide⟩,
    ⟨h.1, h.2.2.1, h.2.2.2⟩, h2⟩

/-- C3 evaluated at the failing input (code bug): submitting the duplicate
recurring action (reference 1, same identity as the tabled reference 0)
returns TRUE and keeps exactly the existing entry in the recurring table,
with the entry's callback and user data replaced by the new submission's —
but the new submission descriptor is NOT freed: `services_action_free` is
reached while the recurring table still holds the shared key
`r_monitor_5000`, so its `CRM_CHECK` guard returns without freeing,
contradicting the function's own comments ("free the duplicate",
"entry rescheduled, dup freed"). -/
theorem handle_duplicate_recurring_leaks_duplicate :
    (services_action_async (fun _ => true) dupState 1 (some 3)).1 = true ∧
    (services_action_async (fun _ => true) dupState 1 (some 3)).2.1.recurring_actions =
      [("r_monitor_5000", 0)] ∧
    ((services_action_async (fun _ => true) dupState 1 (some 3)).2.1.heap 0).callback =
      some 3 ∧
    ((services_action_async (fun _ => true) dupState 1 (some 3)).2.1.heap 0).cb_data =
      some 4 ∧
    ExecEvent.freed 1 ∉ (services_action_async (fun _ => true) dupState 1 (some 3)).2.2 := by
  decide

/-- C1 counterexample: an asynchronous submission (reference 1, resource "r")
arriving while reference 0 — an action with the same `rsc_id` — is on the
in-flight list is NOT appended to the blocked list, because it is a duplicate
recurring submission and the duplicate-merge path of `services_action_async`
returns before the blocked-queue check is reached.  (It is not executed
either: no exec event is emitted.) -/
theorem async_same_rsc_not_blocked_cex :
    is_op_blocked dupStateInflight (dupStateInflight.heap 1).rsc = true ∧
    (services_action_async (fun _ => true) dupStateInflight 1 (some 3)).2.1.blocked_ops =
      [] ∧
    ExecEvent.execCall 1 ∉
      (services_action_async (fun _ => true) dupStateInflight 1 (some 3)).2.2 := by
  decide

/-- C9 counterexample: creating an action with the unknown class "foo" (all
identity fields present) returns NULL as claimed, but it does mutate executor
state: the global submission counter `operations` is incremented, because
`op->sequence = ++operations` runs before the class branches are examined. -/
theorem resources_action_create_unknown_class_mutates_counter_cex :
    (resources_action_create noDiscovery freshExecState (some "r") (some "foo") none
        (some "a") (some "start") 0 20 [] 0).1 = none ∧
    (resources_action_create noDiscovery freshExecState (some "r") (some "foo") none
        (some "a") (some "start") 0 20 [] 0).2.operations ≠ freshExecState.operations := by
  decide

/-- C9 (amended): every validation failure (empty resource name, class, agent
or operation, or a provider-requiring class with an empty provider) fails
fast, returning NULL with the executor state — tracking tables and counter —
completely untouched.  The unknown-class failure also returns NULL and
touches no tracking table, but increments the global submission counter. -/
theorem resources_action_create_validation (env : ServiceDiscovery) (s : ExecState)
    (name standard provider agent action : Option String) (interval timeout : Int)
    (params : List (String × String)) (flags : Nat) :
    ((crm_strlen_zero name = true ∨ crm_strlen_zero standard = true ∨
        (crm_provider_required standard = true ∧ crm_strlen_zero provider = true) ∨
        crm_strlen_zero agent = true ∨ crm_strlen_zero action = true) →
      resources_action_create env s name standard provider agent action interval timeout
          params flags = (none, s)) ∧
    (crm_strlen_zero name = false → crm_strlen_zero standard = false →
      ¬ (crm_provider_required standard = true ∧ crm_strlen_zero provider = true) →
      crm_strlen_zero agent = false → crm_strlen_zero action = false →
      known_resource_standard
          (expand_resource_class env (standard.getD "") (agent.getD "")) = false →
      resources_action_create env s name standard provider agent action interval timeout
          params flags = (none, { s with operations := s.operations + 1 })) := by
  constructor
  · intro h
    unfold resources_action_create
    by_cases h1 : crm_strlen_zero name = true
    · simp [h1]
    · by_cases h2 : crm_strlen_zero standard = true
      · simp [h1, h2]
      · by_cases h3 : (crm_provider_required standard && crm_strlen_zero provider) = true
        · simp [h1, h2, h3]
        · by_cases h4 : crm_strlen_zero agent = true
          · simp [h1, h2, h3, h4]
          · by_cases h5 : crm_strlen_zero action = true
            · simp [h1, h2, h3, h4, h5]
            · exfalso
              rcases h with h | h | h | h | h
              · exact h1 h
              · exact h2 h
              · exact h3 (by simp [h.1, h.2])
              · exact h4 h
              · exact h5 h
  · intro h1 h2 h3 h4 h5 hk
    have h3b : (crm_provider_required standard && crm_strlen_zero provider) = false := by
      cases hcp : crm_provider_required standard <;> cases hzp : crm_strlen_zero provider <;>
        simp_all
    simp only [known_resource_standard, Bool.or_eq_false_iff] at hk
    obtain ⟨⟨⟨⟨⟨hk1, hk2⟩, hk3⟩, hk4⟩, hk5⟩, hk6⟩ := hk
    simp [resources_action_create, h1, h2, h3b, h4, h5, hk1, hk2, hk3, hk4, hk5, hk6]

/-- Witness for the amended C9: an empty class leaves the state untouched; an
unknown class "foo" returns NULL, leaves the tables untouched and increments
the submission counter. -/
theorem resources_action_create_validation_witness :
    (crm_strlen_zero (none : Option String) = true ∧
      resources_action_create noDiscovery freshExecState none (some "lsb") none (some "a")
          (some "start") 0 20 [] 0 = (none, freshExecState)) ∧
    (known_resource_standard (expand_resource_class noDiscovery "foo" "a") = false ∧
      resources_action_create noDiscovery freshExecState (some "r") (some "foo") none
          (some "a") (some "start") 0 20 [] 0 =
        (none, { freshExecState with operations := freshExecState.operations + 1 })) := by
  constructor
  · exact ⟨by decide,
      (resources_action_create_validation noDiscovery freshExecState none (some "lsb") none
          (some "a") (some "start") 0 20 [] 0).1 (Or.inl (by decide))⟩
  · exact ⟨by decide,
      (resources_action_create_validation noDiscovery freshExecState (some "r") (some "foo")
          none (some "a") (some "start") 0 20 [] 0).2 (by decide) (by decide)
        (by decide) (by decide) (by decide) (by decide)⟩

theorem rscFrame_refl (s : ExecState) : RscFrame s s :=
  ⟨rfl, fun _ => rfl⟩

theorem rscFrame_trans {s t u : ExecState} (h1 : RscFrame s t) (h2 : RscFrame t u) :
    RscFrame s u :=
  ⟨h2.1.trans h1.1, fun x => (h2.2 x).trans (h1.2 x)⟩

theorem inflight_rscs_of_frame {s s2 : ExecState} (h : RscFrame s s2) :
    inflight_rscs s2 = inflight_rscs s := by
  unfold inflight_rscs
  rw [h.1]
  congr 1
  funext x
  rw [h.2]

theorem serialized_of_frame {s s2 : ExecState} (h : RscFrame s s2) :
    InflightSerialized s → InflightSerialized s2 := by
  intro hs
  unfold InflightSerialized
  rw [inflight_rscs_of_frame h]
  exact hs

theorem heapSet_preserves_rsc (h : Ref → SvcAction) (r : Ref) (a : SvcAction)
    (ha : a.rsc = (h r).rsc) (x : Ref) : (heapSet h r a x).rsc = (h x).rsc := by
  by_cases hx : x = r
  · subst hx
    rw [heapSet_same, ha]
  · rw [heapSet_other _ _ _ _ hx]

theorem serialized_of_erase (s s2 : ExecState) (r : Ref)
    (hl : s2.inflight_ops = s.inflight_ops.erase r)
    (hh : ∀ x, (s2.heap x).rsc = (s.heap x).rsc) :
    InflightSerialized s → InflightSerialized s2 := by
  intro hs
  have hmap : inflight_rscs s2 = (s.inflight_ops.erase r).map (fun x => (s.heap x).rsc) := by
    unfold inflight_rscs
    rw [hl]
    congr 1
    funext x
    rw [hh]
  unfold InflightSerialized
  rw [hmap]
  exact List.Pairwise.sublist (List.Sublist.map _ (s.inflight_ops.erase_sublist r)) hs

theorem serialized_append (s : ExecState) (r : Ref)
    (hs : InflightSerialized s) (hb : is_op_blocked s ((s.heap r).rsc) = false) :
    List.Pairwise (fun a b => safe_str_eq a b = false)
      ((inflight_rscs s) ++ [(s.heap r).rsc]) := by
  rw [List.pairwise_append]
  refine ⟨hs, List.pairwise_singleton _ _, ?_⟩
  intro a ha b hb2
  rw [List.mem_singleton] at hb2
  subst hb2
  rw [inflight_rscs, List.mem_map] at ha
  obtain ⟨q, hq, rfl⟩ := ha
  simp only [is_op_blocked, List.any_eq_false, Bool.not_eq_true] at hb
  exact hb q hq

theorem services_add_inflight_op_serialized (s : ExecState) (r : Ref)
    (hs : InflightSerialized s) (hb : is_op_blocked s ((s.heap r).rsc) = false) :
    InflightSerialized (services_add_inflight_op s r) := by
  unfold services_add_inflight_op
  split
  · unfold InflightSerialized inflight_rscs
    simp only [List.map_append, List.map_cons, List.map_nil]
    exact serialized_append s r hs hb
  · exact hs

theorem free_frame (s : ExecState) (r : Ref) :
    RscFrame s (services_action_free s r).1 := by
  unfold services_action_free
  dsimp only
  split
  · exact rscFrame_refl s
  · split
    · exact rscFrame_refl s
    · split
      · exact rscFrame_refl s
      · split
        · dsimp only
          exact ⟨rfl, fun x =>
            heapSet_preserves_rsc s.heap r { s.heap r with repeat_timer := 0 } rfl x⟩
        · exact rscFrame_refl s

theorem cancel_recurring_action_frame (s : ExecState) (r : Ref) :
    RscFrame s (cancel_recurring_action s r).1 := by
  unfold cancel_recurring_action
  dsimp only
  split
  · dsimp only
    exact ⟨rfl, fun x =>
      heapSet_preserves_rsc s.heap r { s.heap r with repeat_timer := 0 } rfl x⟩
  · exact ⟨rfl, fun x => rfl⟩

theorem heapSet_preserves_rsc2 (h : Ref → SvcAction) (r : Ref) (f : SvcAction → SvcAction)
    (hf : ∀ a, (f a).rsc = a.rsc) (x : Ref) : (heapSet h r (f (h r)) x).rsc = (h x).rsc :=
  heapSet_preserves_rsc h r (f (h r)) (hf (h r)) x

theorem heapUpd_frame (s : ExecState) (r : Ref) (f : SvcAction → SvcAction)
    (hf : ∀ a, (f a).rsc = a.rsc) : RscFrame s (heapUpd s r f) :=
  ⟨rfl, fun x => heapSet_preserves_rsc2 s.heap r f hf x⟩

theorem dup_update_callback_frame (s : ExecState) (r dup : Ref) :
    RscFrame s (dup_update_callback s r dup) := by
  unfold dup_update_callback
  dsimp only
  split
  · exact rscFrame_trans
      (heapUpd_frame s dup
        (fun a => { a with callback := (s.heap r).callback, cb_data := (s.heap r).cb_data })
        (fun _ => rfl))
      (heapUpd_frame _ r (fun a => { a with cb_data := none }) (fun _ => rfl))
  · exact rscFrame_refl s

theorem dup_refire_frame (s : ExecState) (r dup : Ref) :
    RscFrame s (dup_refire s r dup).1 := by
  unfold dup_refire
  dsimp only
  split
  · split
    · exact heapUpd_frame s r (fun a => { a with repeat_timer := 0 }) (fun _ => rfl)
    · exact rscFrame_refl s
  · exact rscFrame_refl s

theorem handle_duplicate_recurring_frame (s : ExecState) (r : Ref) :
    RscFrame s (handle_duplicate_recurring s r).2.1 := by
  unfold handle_duplicate_recurring
  cases hl : s.recurring_actions.lookup (s.heap r).id with
  | none => exact rscFrame_refl s
  | some dup =>
    dsimp only
    split
    · exact rscFrame_trans
        (rscFrame_trans (dup_update_callback_frame s r dup)
          (dup_refire_frame (dup_update_callback s r dup) r dup))
        (free_frame (dup_refire (dup_update_callback s r dup) r dup).1 r)
    · exact rscFrame_refl s

theorem finalize_reschedule_frame (ft : Nat) (s : ExecState) (r : Ref) :
    RscFrame s (finalize_reschedule ft s r).1.1 := by
  unfold finalize_reschedule
  dsimp only
  split
  · split
    · exact rscFrame_trans
        (heapUpd_frame s r (fun a => { a with status := PCMK_LRM_OP_CANCELLED })
          (fun _ => rfl))
        (cancel_recurring_action_frame _ r)
    · exact heapUpd_frame s r (fun a => { a with repeat_timer := ft }) (fun _ => rfl)
  · exact rscFrame_refl s

theorem operation_finalize_serialized (ft : Nat) (s : ExecState) (r : Ref)
    (hs : InflightSerialized s) : InflightSerialized (operation_finalize ft s r).1 := by
  unfold operation_finalize
  dsimp only
  have hserC : InflightSerialized
      ({ (finalize_reschedule ft s r).1.1 with
          inflight_ops := (finalize_reschedule ft s r).1.1.inflight_ops.erase r,
          blocked_ops := (finalize_reschedule ft s r).1.1.blocked_ops.erase r } : ExecState) :=
    serialized_of_erase _ _ r rfl (fun _ => rfl)
      (serialized_of_frame (finalize_reschedule_frame ft s r) hs)
  split
  · exact serialized_of_frame (free_frame _ r) hserC
  · exact hserC

theorem handle_blocked_go_serialized (exec_ok : Ref → Bool) (ft : Nat) :
    ∀ (l : List Ref) (s : ExecState), InflightSerialized s →
      InflightSerialized (handle_blocked_go exec_ok ft l s).1
  | [], _, hs => hs
  | r :: rest, s, hs => by
    unfold handle_blocked_go
    dsimp only
    split
    · exact handle_blocked_go_serialized exec_ok ft rest s hs
    case isFalse hblk =>
      have hblk2 : is_op_blocked s ((s.heap r).rsc) = false :=
        Bool.eq_false_iff.mpr hblk
      by_cases hex : exec_ok r = true
      · simp only [action_exec_helper, hex, if_true]
        exact handle_blocked_go_serialized exec_ok ft rest _
          (services_add_inflight_op_serialized s r hs hblk2)
      · have hex2 : exec_ok r = false := Bool.eq_false_iff.mpr hex
        simp only [action_exec_helper, hex2, Bool.false_eq_true, if_false]
        exact handle_blocked_go_serialized exec_ok ft rest _
          (operation_finalize_serialized ft _ r
            (serialized_of_frame
              (heapUpd_frame s r (fun a => { a with status := PCMK_LRM_OP_ERROR })
                (fun _ => rfl)) hs))

theorem handle_blocked_ops_serialized (exec_ok : Ref → Bool) (ft : Nat) (s : ExecState)
    (hs : InflightSerialized s) : InflightSerialized (handle_blocked_ops exec_ok ft s).1 := by
  unfold handle_blocked_ops
  dsimp only
  split
  · exact hs
  · exact serialized_of_frame ⟨rfl, fun _ => rfl⟩
      (handle_blocked_go_serialized exec_ok ft s.blocked_ops
        { s with processing_blocked_ops := true }
        (serialized_of_frame ⟨rfl, fun _ => rfl⟩ hs))

theorem services_untrack_op_serialized (exec_ok : Ref → Bool) (ft : Nat) (s : ExecState)
    (r : Ref) (hs : InflightSerialized s) :
    InflightSerialized (services_untrack_op exec_ok ft s r).1 := by
  unfold services_untrack_op
  dsimp only
  exact handle_blocked_ops_serialized exec_ok ft _
    (serialized_of_erase s _ r rfl (fun _ => rfl) hs)

theorem async_queue_or_exec_serialized (exec_ok : Ref → Bool) (s : ExecState) (r : Ref)
    (hs : InflightSerialized s) :
    InflightSerialized (async_queue_or_exec exec_ok s r).2.1 := by
  unfold async_queue_or_exec
  split
  case isTrue h => exact serialized_of_frame ⟨rfl, fun _ => rfl⟩ hs
  case isFalse hcond =>
    unfold action_exec_helper
    split
    · dsimp only
      by_cases hrs : (s.heap r).rsc.isSome = true
      · have hblk : is_op_blocked s ((s.heap r).rsc) = false := by
          cases hb : is_op_blocked s ((s.heap r).rsc) with
          | false => rfl
          | true => exact absurd ⟨hrs, hb⟩ hcond
        exact services_add_inflight_op_serialized s r hs hblk
      · unfold services_add_inflight_op
        rw [if_neg hrs]
        exact hs
    · exact hs

theorem services_action_async_core_serialized (exec_ok : Ref → Bool) (s : ExecState)
    (r : Ref) (hs : InflightSerialized s) :
    InflightSerialized (services_action_async_core exec_ok s r).2.1 := by
  unfold services_action_async_core
  dsimp only
  split
  · split
    · exact serialized_of_frame (handle_duplicate_recurring_frame s r) hs
    · exact async_queue_or_exec_serialized exec_ok _ r
        (serialized_of_frame ⟨rfl, fun _ => rfl⟩ hs)
  · exact async_queue_or_exec_serialized exec_ok s r hs

theorem services_action_async_serialized (exec_ok : Ref → Bool) (s : ExecState) (r : Ref)
    (cb : Option Nat) (hs : InflightSerialized s) :
    InflightSerialized (services_action_async exec_ok s r cb).2.1 := by
  unfold services_action_async
  cases cb with
  | none =>
    dsimp only
    exact services_action_async_core_serialized exec_ok _ r
      (serialized_of_frame
        (heapUpd_frame s r (fun a => { a with synchronous := false }) (fun _ => rfl)) hs)
  | some c =>
    dsimp only
    exact services_action_async_core_serialized exec_ok _ r
      (serialized_of_frame (rscFrame_trans
        (heapUpd_frame s r (fun a => { a with synchronous := false }) (fun _ => rfl))
        (heapUpd_frame (heapUpd s r (fun a => { a with synchronous := false })) r
          (fun a => { a with callback := some c }) (fun _ => rfl))) hs)

theorem execCall_not_in_free (s : ExecState) (r x : Ref) :
    ExecEvent.execCall x ∉ (services_action_free s r).2 := by
  unfold services_action_free
  dsimp only
  split
  · simp
  · split
    · simp
    · split
      · simp
      · split <;> simp

theorem execCall_not_in_cra (s : ExecState) (r x : Ref) :
    ExecEvent.execCall x ∉ (cancel_recurring_action s r).2 := by
  unfold cancel_recurring_action
  dsimp only
  split <;> simp

theorem execCall_not_in_finalize (ft : Nat) (s : ExecState) (r x : Ref) :
    ExecEvent.execCall x ∉ (operation_finalize ft s r).2 := by
  unfold operation_finalize
  dsimp only
  intro hmem
  rw [List.mem_append] at hmem
  rcases hmem with hmem2 | h
  · rw [List.mem_append] at hmem2
    rcases hmem2 with h | h
    · revert h
      unfold finalize_reschedule
      dsimp only
      split
      · split
        · exact execCall_not_in_cra _ r x
        · simp
      · simp
    · revert h
      split <;> simp
  · revert h
    split
    · exact execCall_not_in_free _ r x
    · simp

theorem handle_blocked_go_exec_mem (exec_ok : Ref → Bool) (ft : Nat) :
    ∀ (l : List Ref) (s : ExecState) (x : Ref),
      ExecEvent.execCall x ∈ (handle_blocked_go exec_ok ft l s).2.2 → x ∈ l
  | [], _, x, h => by simp [handle_blocked_go] at h
  | r :: rest, s, x, h => by
    unfold handle_blocked_go at h
    dsimp only at h
    by_cases hblk : is_op_blocked s ((s.heap r).rsc) = true
    · rw [if_pos hblk] at h
      exact List.mem_cons_of_mem r (handle_blocked_go_exec_mem exec_ok ft rest s x h)
    · rw [if_neg hblk] at h
      by_cases hex : exec_ok r = true
      · simp only [action_exec_helper, hex, if_true] at h
        simp only [List.cons_append, List.singleton_append, List.nil_append, List.mem_cons,
          List.mem_append, List.mem_singleton, List.not_mem_nil, false_or, or_false,
          ExecEvent.execCall.injEq] at h
        rcases h with h | h
        · simp [h]
        · exact List.mem_cons_of_mem r (handle_blocked_go_exec_mem exec_ok ft rest _ x h)
      · have hex2 : exec_ok r = false := Bool.eq_false_iff.mpr hex
        simp only [action_exec_helper, hex2, Bool.false_eq_true, if_false] at h
        simp only [List.cons_append, List.singleton_append, List.nil_append, List.mem_cons,
          List.mem_append, List.mem_singleton, ExecEvent.execCall.injEq] at h
        rcases h with h | h | h
        · simp [h]
        · exact absurd h (execCall_not_in_finalize ft _ r x)
        · exact List.mem_cons_of_mem r (handle_blocked_go_exec_mem exec_ok ft rest _ x h)

theorem heapSet_preserves_field {α : Type} (g : SvcAction → α) (h : Ref → SvcAction)
    (r : Ref) (f : SvcAction → SvcAction) (hf : ∀ a, g (f a) = g a) (x : Ref) :
    g (heapSet h r (f (h r)) x) = g (h x) := by
  by_cases hx : x = r
  · rw [hx, heapSet_same]
    exact hf (h r)
  · rw [heapSet_other _ _ _ _ hx]

theorem is_op_blocked_congr {s s2 : ExecState} (hl : s2.inflight_ops = s.inflight_ops)
    (hh : ∀ x, (s2.heap x).rsc = (s.heap x).rsc) (rsc : Option String) :
    is_op_blocked s2 rsc = is_op_blocked s rsc := by
  unfold is_op_blocked
  rw [hl]
  congr 1
  funext x
  rw [hh]

theorem async_queue_or_exec_blocked (exec_ok : Ref → Bool) (s : ExecState) (r : Ref)
    (hrsc : (s.heap r).rsc.isSome = true)
    (hblk : is_op_blocked s ((s.heap r).rsc) = true) :
    async_queue_or_exec exec_ok s r =
      (true, { s with blocked_ops := s.blocked_ops ++ [r] }, []) := by
  unfold async_queue_or_exec
  rw [if_pos ⟨hrsc, hblk⟩]

theorem heapUpd_at (s : ExecState) (r : Ref) (f : SvcAction → SvcAction) :
    (heapUpd s r f).heap r = f (s.heap r) :=
  heapSet_same s.heap r (f (s.heap r))

theorem services_action_async_core_blocked (exec_ok : Ref → Bool) (s : ExecState) (r : Ref)
    (hrsc : (s.heap r).rsc.isSome = true)
    (hblk : is_op_blocked s ((s.heap r).rsc) = true)
    (hdup : ∀ d, s.recurring_actions.lookup (s.heap r).id = some d → d = r) :
    (services_action_async_core exec_ok s r).1 = true ∧
    (services_action_async_core exec_ok s r).2.1.blocked_ops = s.blocked_ops ++ [r] ∧
    (services_action_async_core exec_ok s r).2.1.inflight_ops = s.inflight_ops ∧
    (services_action_async_core exec_ok s r).2.2 = [] := by
  unfold services_action_async_core
  by_cases hint : (s.heap r).interval > 0
  · rw [if_pos hint]
    dsimp only
    cases hl : s.recurring_actions.lookup (s.heap r).id with
    | none =>
      have hdup0 : handle_duplicate_recurring s r = (false, s, []) := by
        unfold handle_duplicate_recurring
        rw [hl]
      rw [hdup0]
      dsimp only
      rw [if_neg (by simp)]
      rw [async_queue_or_exec_blocked exec_ok
        { s with recurring_actions := assoc_replace s.recurring_actions (s.heap r).id r } r
        hrsc hblk]
      exact ⟨rfl, rfl, rfl, rfl⟩
    | some d =>
      have hd := hdup d hl
      have hdup0 : handle_duplicate_recurring s r = (false, s, []) := by
        unfold handle_duplicate_recurring
        rw [hl]
        dsimp only
        rw [if_neg (by simp [hd])]
      rw [hdup0]
      dsimp only
      rw [if_neg (by simp)]
      rw [async_queue_or_exec_blocked exec_ok
        { s with recurring_actions := assoc_replace s.recurring_actions (s.heap r).id r } r
        hrsc hblk]
      exact ⟨rfl, rfl, rfl, rfl⟩
  · rw [if_neg hint]
    rw [async_queue_or_exec_blocked exec_ok s r hrsc hblk]
    exact ⟨rfl, rfl, rfl, rfl⟩

theorem services_action_async_blocked_aux (exec_ok : Ref → Bool) (s t : ExecState) (r : Ref)
    (hframe : RscFrame s t)
    (hrec : t.recurring_actions = s.recurring_actions)
    (hbl : t.blocked_ops = s.blocked_ops)
    (hid : (t.heap r).id = (s.heap r).id)
    (hrsc : (s.heap r).rsc.isSome = true)
    (hblk : is_op_blocked s ((s.heap r).rsc) = true)
    (hdup : ∀ d, s.recurring_actions.lookup (s.heap r).id = some d → d = r) :
    (services_action_async_core exec_ok t r).1 = true ∧
    (services_action_async_core exec_ok t r).2.1.blocked_ops = s.blocked_ops ++ [r] ∧
    (services_action_async_core exec_ok t r).2.1.inflight_ops = s.inflight_ops ∧
    (services_action_async_core exec_ok t r).2.2 = [] := by
  have hrsc1 : ((t.heap r).rsc).isSome = true := by
    rw [hframe.2 r]
    exact hrsc
  have hblk1 : is_op_blocked t ((t.heap r).rsc) = true := by
    rw [is_op_blocked_congr hframe.1 hframe.2, hframe.2 r]
    exact hblk
  have hdup1 : ∀ d, t.recurring_actions.lookup ((t.heap r).id) = some d → d = r := by
    intro d hd
    rw [hrec, hid] at hd
    exact hdup d hd
  have h := services_action_async_core_blocked exec_ok t r hrsc1 hblk1 hdup1
  refine ⟨h.1, ?_, ?_, h.2.2.2⟩
  · rw [h.2.1, hbl]
  · rw [h.2.2.1, hframe.1]

theorem services_action_async_blocked (exec_ok : Ref → Bool) (s : ExecState) (r : Ref)
    (cb : Option Nat)
    (hrsc : (s.heap r).rsc.isSome = true)
    (hblk : is_op_blocked s ((s.heap r).rsc) = true)
    (hdup : ∀ d, s.recurring_actions.lookup (s.heap r).id = some d → d = r) :
    (services_action_async exec_ok s r cb).1 = true ∧
    (services_action_async exec_ok s r cb).2.1.blocked_ops = s.blocked_ops ++ [r] ∧
    (services_action_async exec_ok s r cb).2.1.inflight_ops = s.inflight_ops ∧
    (services_action_async exec_ok s r cb).2.2 = [] := by
  unfold services_action_async
  cases cb with
  | none =>
    dsimp only
    exact services_action_async_blocked_aux exec_ok s
      (heapUpd s r (fun a => { a with synchronous := false })) r
      (heapUpd_frame s r (fun a => { a with synchronous := false }) (fun _ => rfl))
      rfl rfl (by rw [heapUpd_at]) hrsc hblk hdup
  | some c =>
    dsimp only
    exact services_action_async_blocked_aux exec_ok s
      (heapUpd (heapUpd s r (fun a => { a with synchronous := false })) r
        (fun a => { a with callback := some c })) r
      (rscFrame_trans
        (heapUpd_frame s r (fun a => { a with synchronous := false }) (fun _ => rfl))
        (heapUpd_frame (heapUpd s r (fun a => { a with synchronous := false })) r
          (fun a => { a with callback := some c }) (fun _ => rfl)))
      rfl rfl (by rw [heapUpd_at, heapUpd_at]) hrsc hblk hdup

/-- C1 (amended): (a) an asynchronous submission whose resource id matches an
in-flight action's resource id and which is not a duplicate of a different
recurring entry is appended to the blocked list instead of being executed (no
exec event, in-flight list unchanged); (b) the invariant "at most one
in-flight action per resource id" is preserved by asynchronous submission, by
the blocked-queue drain, and by completion untracking; (c) the blocked-queue
scan dispatches only entries of the scanned snapshot, and never an entry
whose resource id still has an in-flight action at its scan point. -/
theorem executor_per_resource_serialization (exec_ok : Ref → Bool) (ft : Nat)
    (s : ExecState) (r x : Ref) (cb : Option Nat) (l rest : List Ref) :
    ((s.heap r).rsc.isSome = true →
      is_op_blocked s ((s.heap r).rsc) = true →
      (∀ d, s.recurring_actions.lookup (s.heap r).id = some d → d = r) →
      (services_action_async exec_ok s r cb).1 = true ∧
        (services_action_async exec_ok s r cb).2.1.blocked_ops = s.blocked_ops ++ [r] ∧
        (services_action_async exec_ok s r cb).2.1.inflight_ops = s.inflight_ops ∧
        (services_action_async exec_ok s r cb).2.2 = []) ∧
    (InflightSerialized s →
      InflightSerialized (services_action_async exec_ok s r cb).2.1 ∧
        InflightSerialized (handle_blocked_ops exec_ok ft s).1 ∧
        InflightSerialized (services_untrack_op exec_ok ft s r).1) ∧
    (ExecEvent.execCall x ∈ (handle_blocked_go exec_ok ft l s).2.2 → x ∈ l) ∧
    (is_op_blocked s ((s.heap r).rsc) = true → r ∉ rest →
      ExecEvent.execCall r ∉ (handle_blocked_go exec_ok ft (r :: rest) s).2.2) := by
  refine ⟨fun h1 h2 h3 => services_action_async_blocked exec_ok s r cb h1 h2 h3,
    fun hs => ⟨services_action_async_serialized exec_ok s r cb hs,
      handle_blocked_ops_serialized exec_ok ft s hs,
      services_untrack_op_serialized exec_ok ft s r hs⟩,
    fun h => handle_blocked_go_exec_mem exec_ok ft l s x h,
    fun hblk hnr hmem => ?_⟩
  unfold handle_blocked_go at hmem
  dsimp only at hmem
  rw [if_pos hblk] at hmem
  exact hnr (handle_blocked_go_exec_mem exec_ok ft rest s r hmem)

/-- Witness for the amended C1: with the start action for resource "r" in
flight (reference 0), submitting the non-recurring monitor for "r"
(reference 1) queues it on the blocked list, leaves the in-flight list
unchanged, and the serialization invariant keeps holding. -/
theorem executor_per_resource_serialization_witness :
    ((busyState.heap 1).rsc.isSome = true ∧
      is_op_blocked busyState ((busyState.heap 1).rsc) = true ∧
      InflightSerialized busyState) ∧
    ((services_action_async (fun _ => true) busyState 1 none).2.1.blocked_ops = [1] ∧
      (services_action_async (fun _ => true) busyState 1 none).2.1.inflight_ops = [0] ∧
      InflightSerialized (services_action_async (fun _ => true) busyState 1 none).2.1) := by
  have h := executor_per_resource_serialization (fun _ => true) 7 busyState 1 1 none [] []
  have hser : InflightSerialized busyState := by
    unfold InflightSerialized inflight_rscs
    simp [busyState]
  have h1 := h.1 (by decide) (by decide) (fun d hd => Option.noConfusion hd)
  refine ⟨⟨by decide, by decide, hser⟩, ?_, ?_, (h.2.1 hser).1⟩
  · simpa [busyState] using h1.2.1
  · simpa [busyState] using h1.2.2.1

end Pacemaker
